import Mathlib

/-!
# StockSense front end: starred-stock store and refresh scheduler

A shallow embedding of `frontend/src/context/StockContext.jsx`,
`frontend/src/components/Dashboard.jsx`, `frontend/src/services/api.js` and of
the load and submit handlers of `StockCard.jsx`, `StockAnalysis.jsx` and
`SearchBar.jsx`.

* A promise is modelled by the way it settles: `Except.ok v` for a promise
  resolved with `v`, `Except.error e` for a promise rejected with `e`.
* The React state cells of a component (`useState`) are the fields of a
  record; an `async` function is a function from the state before the call
  to its settlement and the state after it.
* The functions exported by `services/api.js` are the collaborators. They are
  taken as a parameter (`Remote`): each one is an arbitrary function of the
  history of everything that happened so far, so a theorem quantified over
  `Remote` speaks about every pattern of successes and failures.
* Every collaborator call and every `console.error` is appended to a log, in
  the order in which it happens.
-/

namespace StockSense

/-! ## Values -/

/-- A thrown JavaScript error object: its `name` and its `message`. -/
structure JsError where
  name : String
  message : String
deriving DecidableEq, Repr

deriving instance DecidableEq for Except

/-- The JavaScript values that can reach a `symbol` parameter. -/
inductive JsValue where
  | undefined
  | null
  | str (s : String)
deriving DecidableEq, Repr

/-- One element of the array returned by `GET /starred`: its `symbol` and the
remaining server-provided fields, which the front end never inspects. -/
structure StarredEntry where
  symbol : String
  fields : List (String × String)
deriving DecidableEq, Repr

/-- The body of a response (`response.data`), never inspected by the store or
the dashboard. -/
abbrev Payload := String

/-- The `TypeError` raised by a property access on `undefined` or `null`, with
the message of V8: `Cannot read properties of undefined (reading 'x')`. -/
def propertyTypeError (receiver property : String) : JsError :=
  ⟨"TypeError",
    "Cannot read properties of " ++ receiver ++ " (reading \x27" ++ property ++ "\x27)"⟩

/-! ## Case conversion

`String.prototype.toUpperCase` and `String.prototype.toLowerCase` are the
default case conversions of the Unicode standard: every character is replaced
by its full case mapping, and the only mapping that depends on the context is
that of capital sigma in lower case. -/

/-- The upper-case mapping of the Unicode Character Database (version 14.0,
`UnicodeData.txt` with the unconditional mappings of `SpecialCasing.txt`): each
code point that has one, with the code points it maps to, in ascending order
and in blocks headed by their last code point. -/
def upperCaseTable : List (Nat × List (Nat × List Nat)) := [
  (243, [
    (97, [65]), (98, [66]), (99, [67]), (100, [68]), (101, [69]), (102, [70]), (103, [71]),
    (104, [72]), (105, [73]), (106, [74]), (107, [75]), (108, [76]), (109, [77]), (110, [78]),
    (111, [79]), (112, [80]), (113, [81]), (114, [82]), (115, [83]), (116, [84]), (117, [85]),
    (118, [86]), (119, [87]), (120, [88]), (121, [89]), (122, [90]), (181, [924]),
    (223, [83, 83]), (224, [192]), (225, [193]), (226, [194]), (227, [195]), (228, [196]),
    (229, [197]), (230, [198]), (231, [199]), (232, [200]), (233, [201]), (234, [202]),
    (235, [203]), (236, [204]), (237, [205]), (238, [206]), (239, [207]), (240, [208]),
    (241, [209]), (242, [210]), (243, [211])
  ]),
  (329, [
    (244, [212]), (245, [213]), (246, [214]), (248, [216]), (249, [217]), (250, [218]),
    (251, [219]), (252, [220]), (253, [221]), (254, [222]), (255, [376]), (257, [256]),
    (259, [258]), (261, [260]), (263, [262]), (265, [264]), (267, [266]), (269, [268]),
    (271, [270]), (273, [272]), (275, [274]), (277, [276]), (279, [278]), (281, [280]),
    (283, [282]), (285, [284]), (287, [286]), (289, [288]), (291, [290]), (293, [292]),
    (295, [294]), (297, [296]), (299, [298]), (301, [300]), (303, [302]), (305, [73]),
    (307, [306]), (309, [308]), (311, [310]), (314, [313]), (316, [315]), (318, [317]),
    (320, [319]), (322, [321]), (324, [323]), (326, [325]), (328, [327]), (329, [700, 78])
  ]),
  (447, [
    (331, [330]), (333, [332]), (335, [334]), (337, [336]), (339, [338]), (341, [340]),
    (343, [342]), (345, [344]), (347, [346]), (349, [348]), (351, [350]), (353, [352]),
    (355, [354]), (357, [356]), (359, [358]), (361, [360]), (363, [362]), (365, [364]),
    (367, [366]), (369, [368]), (371, [370]), (373, [372]), (375, [374]), (378, [377]),
    (380, [379]), (382, [381]), (383, [83]), (384, [579]), (387, [386]), (389, [388]),
    (392, [391]), (396, [395]), (402, [401]), (405, [502]), (409, [408]), (410, [573]),
    (414, [544]), (417, [416]), (419, [418]), (421, [420]), (424, [423]), (429, [428]),
    (432, [431]), (436, [435]), (438, [437]), (441, [440]), (445, [444]), (447, [503])
  ]),
  (543, [
    (453, [452]), (454, [452]), (456, [455]), (457, [455]), (459, [458]), (460, [458]),
    (462, [461]), (464, [463]), (466, [465]), (468, [467]), (470, [469]), (472, [471]),
    (474, [473]), (476, [475]), (477, [398]), (479, [478]), (481, [480]), (483, [482]),
    (485, [484]), (487, [486]), (489, [488]), (491, [490]), (493, [492]), (495, [494]),
    (496, [74, 780]), (498, [497]), (499, [497]), (501, [500]), (505, [504]), (507, [506]),
    (509, [508]), (511, [510]), (513, [512]), (515, [514]), (517, [516]), (519, [518]),
    (521, [520]), (523, [522]), (525, [524]), (527, [526]), (529, [528]), (531, [530]),
    (533, [532]), (535, [534]), (537, [536]), (539, [538]), (541, [540]), (543, [542])
  ]),
  (648, [
    (547, [546]), (549, [548]), (551, [550]), (553, [552]), (555, [554]), (557, [556]),
    (559, [558]), (561, [560]), (563, [562]), (572, [571]), (575, [11390]), (576, [11391]),
    (578, [577]), (583, [582]), (585, [584]), (587, [586]), (589, [588]), (591, [590]),
    (592, [11375]), (593, [11373]), (594, [11376]), (595, [385]), (596, [390]), (598, [393]),
    (599, [394]), (601, [399]), (603, [400]), (604, [42923]), (608, [403]), (609, [42924]),
    (611, [404]), (613, [42893]), (614, [42922]), (616, [407]), (617, [406]), (618, [42926]),
    (619, [11362]), (620, [42925]), (623, [412]), (625, [11374]), (626, [413]), (629, [415]),
    (637, [11364]), (640, [422]), (642, [42949]), (643, [425]), (647, [42929]), (648, [430])
  ]),
  (972, [
    (649, [580]), (650, [433]), (651, [434]), (652, [581]), (658, [439]), (669, [42930]),
    (670, [42928]), (837, [921]), (881, [880]), (883, [882]), (887, [886]), (891, [1021]),
    (892, [1022]), (893, [1023]), (912, [921, 776, 769]), (940, [902]), (941, [904]),
    (942, [905]), (943, [906]), (944, [933, 776, 769]), (945, [913]), (946, [914]), (947, [915]),
    (948, [916]), (949, [917]), (950, [918]), (951, [919]), (952, [920]), (953, [921]),
    (954, [922]), (955, [923]), (956, [924]), (957, [925]), (958, [926]), (959, [927]),
    (960, [928]), (961, [929]), (962, [931]), (963, [931]), (964, [932]), (965, [933]),
    (966, [934]), (967, [935]), (968, [936]), (969, [937]), (970, [938]), (971, [939]),
    (972, [908])
  ]),
  (1093, [
    (973, [910]), (974, [911]), (976, [914]), (977, [920]), (981, [934]), (982, [928]),
    (983, [975]), (985, [984]), (987, [986]), (989, [988]), (991, [990]), (993, [992]),
    (995, [994]), (997, [996]), (999, [998]), (1001, [1000]), (1003, [1002]), (1005, [1004]),
    (1007, [1006]), (1008, [922]), (1009, [929]), (1010, [1017]), (1011, [895]), (1013, [917]),
    (1016, [1015]), (1019, [1018]), (1072, [1040]), (1073, [1041]), (1074, [1042]),
    (1075, [1043]), (1076, [1044]), (1077, [1045]), (1078, [1046]), (1079, [1047]),
    (1080, [1048]), (1081, [1049]), (1082, [1050]), (1083, [1051]), (1084, [1052]),
    (1085, [1053]), (1086, [1054]), (1087, [1055]), (1088, [1056]), (1089, [1057]),
    (1090, [1058]), (1091, [1059]), (1092, [1060]), (1093, [1061])
  ]),
  (1171, [
    (1094, [1062]), (1095, [1063]), (1096, [1064]), (1097, [1065]), (1098, [1066]),
    (1099, [1067]), (1100, [1068]), (1101, [1069]), (1102, [1070]), (1103, [1071]),
    (1104, [1024]), (1105, [1025]), (1106, [1026]), (1107, [1027]), (1108, [1028]),
    (1109, [1029]), (1110, [1030]), (1111, [1031]), (1112, [1032]), (1113, [1033]),
    (1114, [1034]), (1115, [1035]), (1116, [1036]), (1117, [1037]), (1118, [1038]),
    (1119, [1039]), (1121, [1120]), (1123, [1122]), (1125, [1124]), (1127, [1126]),
    (1129, [1128]), (1131, [1130]), (1133, [1132]), (1135, [1134]), (1137, [1136]),
    (1139, [1138]), (1141, [1140]), (1143, [1142]), (1145, [1144]), (1147, [1146]),
    (1149, [1148]), (1151, [1150]), (1153, [1152]), (1163, [1162]), (1165, [1164]),
    (1167, [1166]), (1169, [1168]), (1171, [1170])
  ]),
  (1267, [
    (1173, [1172]), (1175, [1174]), (1177, [1176]), (1179, [1178]), (1181, [1180]),
    (1183, [1182]), (1185, [1184]), (1187, [1186]), (1189, [1188]), (1191, [1190]),
    (1193, [1192]), (1195, [1194]), (1197, [1196]), (1199, [1198]), (1201, [1200]),
    (1203, [1202]), (1205, [1204]), (1207, [1206]), (1209, [1208]), (1211, [1210]),
    (1213, [1212]), (1215, [1214]), (1218, [1217]), (1220, [1219]), (1222, [1221]),
    (1224, [1223]), (1226, [1225]), (1228, [1227]), (1230, [1229]), (1231, [1216]),
    (1233, [1232]), (1235, [1234]), (1237, [1236]), (1239, [1238]), (1241, [1240]),
    (1243, [1242]), (1245, [1244]), (1247, [1246]), (1249, [1248]), (1251, [1250]),
    (1253, [1252]), (1255, [1254]), (1257, [1256]), (1259, [1258]), (1261, [1260]),
    (1263, [1262]), (1265, [1264]), (1267, [1266])
  ]),
  (1394, [
    (1269, [1268]), (1271, [1270]), (1273, [1272]), (1275, [1274]), (1277, [1276]),
    (1279, [1278]), (1281, [1280]), (1283, [1282]), (1285, [1284]), (1287, [1286]),
    (1289, [1288]), (1291, [1290]), (1293, [1292]), (1295, [1294]), (1297, [1296]),
    (1299, [1298]), (1301, [1300]), (1303, [1302]), (1305, [1304]), (1307, [1306]),
    (1309, [1308]), (1311, [1310]), (1313, [1312]), (1315, [1314]), (1317, [1316]),
    (1319, [1318]), (1321, [1320]), (1323, [1322]), (1325, [1324]), (1327, [1326]),
    (1377, [1329]), (1378, [1330]), (1379, [1331]), (1380, [1332]), (1381, [1333]),
    (1382, [1334]), (1383, [1335]), (1384, [1336]), (1385, [1337]), (1386, [1338]),
    (1387, [1339]), (1388, [1340]), (1389, [1341]), (1390, [1342]), (1391, [1343]),
    (1392, [1344]), (1393, [1345]), (1394, [1346])
  ]),
  (4330, [
    (1395, [1347]), (1396, [1348]), (1397, [1349]), (1398, [1350]), (1399, [1351]),
    (1400, [1352]), (1401, [1353]), (1402, [1354]), (1403, [1355]), (1404, [1356]),
    (1405, [1357]), (1406, [1358]), (1407, [1359]), (1408, [1360]), (1409, [1361]),
    (1410, [1362]), (1411, [1363]), (1412, [1364]), (1413, [1365]), (1414, [1366]),
    (1415, [1333, 1362]), (4304, [7312]), (4305, [7313]), (4306, [7314]), (4307, [7315]),
    (4308, [7316]), (4309, [7317]), (4310, [7318]), (4311, [7319]), (4312, [7320]),
    (4313, [7321]), (4314, [7322]), (4315, [7323]), (4316, [7324]), (4317, [7325]),
    (4318, [7326]), (4319, [7327]), (4320, [7328]), (4321, [7329]), (4322, [7330]),
    (4323, [7331]), (4324, [7332]), (4325, [7333]), (4326, [7334]), (4327, [7335]),
    (4328, [7336]), (4329, [7337]), (4330, [7338])
  ]),
  (7701, [
    (4331, [7339]), (4332, [7340]), (4333, [7341]), (4334, [7342]), (4335, [7343]),
    (4336, [7344]), (4337, [7345]), (4338, [7346]), (4339, [7347]), (4340, [7348]),
    (4341, [7349]), (4342, [7350]), (4343, [7351]), (4344, [7352]), (4345, [7353]),
    (4346, [7354]), (4349, [7357]), (4350, [7358]), (4351, [7359]), (5112, [5104]),
    (5113, [5105]), (5114, [5106]), (5115, [5107]), (5116, [5108]), (5117, [5109]),
    (7296, [1042]), (7297, [1044]), (7298, [1054]), (7299, [1057]), (7300, [1058]),
    (7301, [1058]), (7302, [1066]), (7303, [1122]), (7304, [42570]), (7545, [42877]),
    (7549, [11363]), (7566, [42950]), (7681, [7680]), (7683, [7682]), (7685, [7684]),
    (7687, [7686]), (7689, [7688]), (7691, [7690]), (7693, [7692]), (7695, [7694]),
    (7697, [7696]), (7699, [7698]), (7701, [7700])
  ]),
  (7797, [
    (7703, [7702]), (7705, [7704]), (7707, [7706]), (7709, [7708]), (7711, [7710]),
    (7713, [7712]), (7715, [7714]), (7717, [7716]), (7719, [7718]), (7721, [7720]),
    (7723, [7722]), (7725, [7724]), (7727, [7726]), (7729, [7728]), (7731, [7730]),
    (7733, [7732]), (7735, [7734]), (7737, [7736]), (7739, [7738]), (7741, [7740]),
    (7743, [7742]), (7745, [7744]), (7747, [7746]), (7749, [7748]), (7751, [7750]),
    (7753, [7752]), (7755, [7754]), (7757, [7756]), (7759, [7758]), (7761, [7760]),
    (7763, [7762]), (7765, [7764]), (7767, [7766]), (7769, [7768]), (7771, [7770]),
    (7773, [7772]), (7775, [7774]), (7777, [7776]), (7779, [7778]), (7781, [7780]),
    (7783, [7782]), (7785, [7784]), (7787, [7786]), (7789, [7788]), (7791, [7790]),
    (7793, [7792]), (7795, [7794]), (7797, [7796])
  ]),
  (7891, [
    (7799, [7798]), (7801, [7800]), (7803, [7802]), (7805, [7804]), (7807, [7806]),
    (7809, [7808]), (7811, [7810]), (7813, [7812]), (7815, [7814]), (7817, [7816]),
    (7819, [7818]), (7821, [7820]), (7823, [7822]), (7825, [7824]), (7827, [7826]),
    (7829, [7828]), (7830, [72, 817]), (7831, [84, 776]), (7832, [87, 778]), (7833, [89, 778]),
    (7834, [65, 702]), (7835, [7776]), (7841, [7840]), (7843, [7842]), (7845, [7844]),
    (7847, [7846]), (7849, [7848]), (7851, [7850]), (7853, [7852]), (7855, [7854]),
    (7857, [7856]), (7859, [7858]), (7861, [7860]), (7863, [7862]), (7865, [7864]),
    (7867, [7866]), (7869, [7868]), (7871, [7870]), (7873, [7872]), (7875, [7874]),
    (7877, [7876]), (7879, [7878]), (7881, [7880]), (7883, [7882]), (7885, [7884]),
    (7887, [7886]), (7889, [7888]), (7891, [7890])
  ]),
  (7987, [
    (7893, [7892]), (7895, [7894]), (7897, [7896]), (7899, [7898]), (7901, [7900]),
    (7903, [7902]), (7905, [7904]), (7907, [7906]), (7909, [7908]), (7911, [7910]),
    (7913, [7912]), (7915, [7914]), (7917, [7916]), (7919, [7918]), (7921, [7920]),
    (7923, [7922]), (7925, [7924]), (7927, [7926]), (7929, [7928]), (7931, [7930]),
    (7933, [7932]), (7935, [7934]), (7936, [7944]), (7937, [7945]), (7938, [7946]),
    (7939, [7947]), (7940, [7948]), (7941, [7949]), (7942, [7950]), (7943, [7951]),
    (7952, [7960]), (7953, [7961]), (7954, [7962]), (7955, [7963]), (7956, [7964]),
    (7957, [7965]), (7968, [7976]), (7969, [7977]), (7970, [7978]), (7971, [7979]),
    (7972, [7980]), (7973, [7981]), (7974, [7982]), (7975, [7983]), (7984, [7992]),
    (7985, [7993]), (7986, [7994]), (7987, [7995])
  ]),
  (8071, [
    (7988, [7996]), (7989, [7997]), (7990, [7998]), (7991, [7999]), (8000, [8008]),
    (8001, [8009]), (8002, [8010]), (8003, [8011]), (8004, [8012]), (8005, [8013]),
    (8016, [933, 787]), (8017, [8025]), (8018, [933, 787, 768]), (8019, [8027]),
    (8020, [933, 787, 769]), (8021, [8029]), (8022, [933, 787, 834]), (8023, [8031]),
    (8032, [8040]), (8033, [8041]), (8034, [8042]), (8035, [8043]), (8036, [8044]),
    (8037, [8045]), (8038, [8046]), (8039, [8047]), (8048, [8122]), (8049, [8123]),
    (8050, [8136]), (8051, [8137]), (8052, [8138]), (8053, [8139]), (8054, [8154]),
    (8055, [8155]), (8056, [8184]), (8057, [8185]), (8058, [8170]), (8059, [8171]),
    (8060, [8186]), (8061, [8187]), (8064, [7944, 921]), (8065, [7945, 921]), (8066, [7946, 921]),
    (8067, [7947, 921]), (8068, [7948, 921]), (8069, [7949, 921]), (8070, [7950, 921]),
    (8071, [7951, 921])
  ]),
  (8124, [
    (8072, [7944, 921]), (8073, [7945, 921]), (8074, [7946, 921]), (8075, [7947, 921]),
    (8076, [7948, 921]), (8077, [7949, 921]), (8078, [7950, 921]), (8079, [7951, 921]),
    (8080, [7976, 921]), (8081, [7977, 921]), (8082, [7978, 921]), (8083, [7979, 921]),
    (8084, [7980, 921]), (8085, [7981, 921]), (8086, [7982, 921]), (8087, [7983, 921]),
    (8088, [7976, 921]), (8089, [7977, 921]), (8090, [7978, 921]), (8091, [7979, 921]),
    (8092, [7980, 921]), (8093, [7981, 921]), (8094, [7982, 921]), (8095, [7983, 921]),
    (8096, [8040, 921]), (8097, [8041, 921]), (8098, [8042, 921]), (8099, [8043, 921]),
    (8100, [8044, 921]), (8101, [8045, 921]), (8102, [8046, 921]), (8103, [8047, 921]),
    (8104, [8040, 921]), (8105, [8041, 921]), (8106, [8042, 921]), (8107, [8043, 921]),
    (8108, [8044, 921]), (8109, [8045, 921]), (8110, [8046, 921]), (8111, [8047, 921]),
    (8112, [8120]), (8113, [8121]), (8114, [8122, 921]), (8115, [913, 921]), (8116, [902, 921]),
    (8118, [913, 834]), (8119, [913, 834, 921]), (8124, [913, 921])
  ]),
  (9426, [
    (8126, [921]), (8130, [8138, 921]), (8131, [919, 921]), (8132, [905, 921]),
    (8134, [919, 834]), (8135, [919, 834, 921]), (8140, [919, 921]), (8144, [8152]),
    (8145, [8153]), (8146, [921, 776, 768]), (8147, [921, 776, 769]), (8150, [921, 834]),
    (8151, [921, 776, 834]), (8160, [8168]), (8161, [8169]), (8162, [933, 776, 768]),
    (8163, [933, 776, 769]), (8164, [929, 787]), (8165, [8172]), (8166, [933, 834]),
    (8167, [933, 776, 834]), (8178, [8186, 921]), (8179, [937, 921]), (8180, [911, 921]),
    (8182, [937, 834]), (8183, [937, 834, 921]), (8188, [937, 921]), (8526, [8498]),
    (8560, [8544]), (8561, [8545]), (8562, [8546]), (8563, [8547]), (8564, [8548]),
    (8565, [8549]), (8566, [8550]), (8567, [8551]), (8568, [8552]), (8569, [8553]),
    (8570, [8554]), (8571, [8555]), (8572, [8556]), (8573, [8557]), (8574, [8558]),
    (8575, [8559]), (8580, [8579]), (9424, [9398]), (9425, [9399]), (9426, [9400])
  ]),
  (11336, [
    (9427, [9401]), (9428, [9402]), (9429, [9403]), (9430, [9404]), (9431, [9405]),
    (9432, [9406]), (9433, [9407]), (9434, [9408]), (9435, [9409]), (9436, [9410]),
    (9437, [9411]), (9438, [9412]), (9439, [9413]), (9440, [9414]), (9441, [9415]),
    (9442, [9416]), (9443, [9417]), (9444, [9418]), (9445, [9419]), (9446, [9420]),
    (9447, [9421]), (9448, [9422]), (9449, [9423]), (11312, [11264]), (11313, [11265]),
    (11314, [11266]), (11315, [11267]), (11316, [11268]), (11317, [11269]), (11318, [11270]),
    (11319, [11271]), (11320, [11272]), (11321, [11273]), (11322, [11274]), (11323, [11275]),
    (11324, [11276]), (11325, [11277]), (11326, [11278]), (11327, [11279]), (11328, [11280]),
    (11329, [11281]), (11330, [11282]), (11331, [11283]), (11332, [11284]), (11333, [11285]),
    (11334, [11286]), (11335, [11287]), (11336, [11288])
  ]),
  (11425, [
    (11337, [11289]), (11338, [11290]), (11339, [11291]), (11340, [11292]), (11341, [11293]),
    (11342, [11294]), (11343, [11295]), (11344, [11296]), (11345, [11297]), (11346, [11298]),
    (11347, [11299]), (11348, [11300]), (11349, [11301]), (11350, [11302]), (11351, [11303]),
    (11352, [11304]), (11353, [11305]), (11354, [11306]), (11355, [11307]), (11356, [11308]),
    (11357, [11309]), (11358, [11310]), (11359, [11311]), (11361, [11360]), (11365, [570]),
    (11366, [574]), (11368, [11367]), (11370, [11369]), (11372, [11371]), (11379, [11378]),
    (11382, [11381]), (11393, [11392]), (11395, [11394]), (11397, [11396]), (11399, [11398]),
    (11401, [11400]), (11403, [11402]), (11405, [11404]), (11407, [11406]), (11409, [11408]),
    (11411, [11410]), (11413, [11412]), (11415, [11414]), (11417, [11416]), (11419, [11418]),
    (11421, [11420]), (11423, [11422]), (11425, [11424])
  ]),
  (11531, [
    (11427, [11426]), (11429, [11428]), (11431, [11430]), (11433, [11432]), (11435, [11434]),
    (11437, [11436]), (11439, [11438]), (11441, [11440]), (11443, [11442]), (11445, [11444]),
    (11447, [11446]), (11449, [11448]), (11451, [11450]), (11453, [11452]), (11455, [11454]),
    (11457, [11456]), (11459, [11458]), (11461, [11460]), (11463, [11462]), (11465, [11464]),
    (11467, [11466]), (11469, [11468]), (11471, [11470]), (11473, [11472]), (11475, [11474]),
    (11477, [11476]), (11479, [11478]), (11481, [11480]), (11483, [11482]), (11485, [11484]),
    (11487, [11486]), (11489, [11488]), (11491, [11490]), (11500, [11499]), (11502, [11501]),
    (11507, [11506]), (11520, [4256]), (11521, [4257]), (11522, [4258]), (11523, [4259]),
    (11524, [4260]), (11525, [4261]), (11526, [4262]), (11527, [4263]), (11528, [4264]),
    (11529, [4265]), (11530, [4266]), (11531, [4267])
  ]),
  (42599, [
    (11532, [4268]), (11533, [4269]), (11534, [4270]), (11535, [4271]), (11536, [4272]),
    (11537, [4273]), (11538, [4274]), (11539, [4275]), (11540, [4276]), (11541, [4277]),
    (11542, [4278]), (11543, [4279]), (11544, [4280]), (11545, [4281]), (11546, [4282]),
    (11547, [4283]), (11548, [4284]), (11549, [4285]), (11550, [4286]), (11551, [4287]),
    (11552, [4288]), (11553, [4289]), (11554, [4290]), (11555, [4291]), (11556, [4292]),
    (11557, [4293]), (11559, [4295]), (11565, [4301]), (42561, [42560]), (42563, [42562]),
    (42565, [42564]), (42567, [42566]), (42569, [42568]), (42571, [42570]), (42573, [42572]),
    (42575, [42574]), (42577, [42576]), (42579, [42578]), (42581, [42580]), (42583, [42582]),
    (42585, [42584]), (42587, [42586]), (42589, [42588]), (42591, [42590]), (42593, [42592]),
    (42595, [42594]), (42597, [42596]), (42599, [42598])
  ]),
  (42849, [
    (42601, [42600]), (42603, [42602]), (42605, [42604]), (42625, [42624]), (42627, [42626]),
    (42629, [42628]), (42631, [42630]), (42633, [42632]), (42635, [42634]), (42637, [42636]),
    (42639, [42638]), (42641, [42640]), (42643, [42642]), (42645, [42644]), (42647, [42646]),
    (42649, [42648]), (42651, [42650]), (42787, [42786]), (42789, [42788]), (42791, [42790]),
    (42793, [42792]), (42795, [42794]), (42797, [42796]), (42799, [42798]), (42803, [42802]),
    (42805, [42804]), (42807, [42806]), (42809, [42808]), (42811, [42810]), (42813, [42812]),
    (42815, [42814]), (42817, [42816]), (42819, [42818]), (42821, [42820]), (42823, [42822]),
    (42825, [42824]), (42827, [42826]), (42829, [42828]), (42831, [42830]), (42833, [42832]),
    (42835, [42834]), (42837, [42836]), (42839, [42838]), (42841, [42840]), (42843, [42842]),
    (42845, [42844]), (42847, [42846]), (42849, [42848])
  ]),
  (43892, [
    (42851, [42850]), (42853, [42852]), (42855, [42854]), (42857, [42856]), (42859, [42858]),
    (42861, [42860]), (42863, [42862]), (42874, [42873]), (42876, [42875]), (42879, [42878]),
    (42881, [42880]), (42883, [42882]), (42885, [42884]), (42887, [42886]), (42892, [42891]),
    (42897, [42896]), (42899, [42898]), (42900, [42948]), (42903, [42902]), (42905, [42904]),
    (42907, [42906]), (42909, [42908]), (42911, [42910]), (42913, [42912]), (42915, [42914]),
    (42917, [42916]), (42919, [42918]), (42921, [42920]), (42933, [42932]), (42935, [42934]),
    (42937, [42936]), (42939, [42938]), (42941, [42940]), (42943, [42942]), (42945, [42944]),
    (42947, [42946]), (42952, [42951]), (42954, [42953]), (42961, [42960]), (42967, [42966]),
    (42969, [42968]), (42998, [42997]), (43859, [42931]), (43888, [5024]), (43889, [5025]),
    (43890, [5026]), (43891, [5027]), (43892, [5028])
  ]),
  (43940, [
    (43893, [5029]), (43894, [5030]), (43895, [5031]), (43896, [5032]), (43897, [5033]),
    (43898, [5034]), (43899, [5035]), (43900, [5036]), (43901, [5037]), (43902, [5038]),
    (43903, [5039]), (43904, [5040]), (43905, [5041]), (43906, [5042]), (43907, [5043]),
    (43908, [5044]), (43909, [5045]), (43910, [5046]), (43911, [5047]), (43912, [5048]),
    (43913, [5049]), (43914, [5050]), (43915, [5051]), (43916, [5052]), (43917, [5053]),
    (43918, [5054]), (43919, [5055]), (43920, [5056]), (43921, [5057]), (43922, [5058]),
    (43923, [5059]), (43924, [5060]), (43925, [5061]), (43926, [5062]), (43927, [5063]),
    (43928, [5064]), (43929, [5065]), (43930, [5066]), (43931, [5067]), (43932, [5068]),
    (43933, [5069]), (43934, [5070]), (43935, [5071]), (43936, [5072]), (43937, [5073]),
    (43938, [5074]), (43939, [5075]), (43940, [5076])
  ]),
  (65353, [
    (43941, [5077]), (43942, [5078]), (43943, [5079]), (43944, [5080]), (43945, [5081]),
    (43946, [5082]), (43947, [5083]), (43948, [5084]), (43949, [5085]), (43950, [5086]),
    (43951, [5087]), (43952, [5088]), (43953, [5089]), (43954, [5090]), (43955, [5091]),
    (43956, [5092]), (43957, [5093]), (43958, [5094]), (43959, [5095]), (43960, [5096]),
    (43961, [5097]), (43962, [5098]), (43963, [5099]), (43964, [5100]), (43965, [5101]),
    (43966, [5102]), (43967, [5103]), (64256, [70, 70]), (64257, [70, 73]), (64258, [70, 76]),
    (64259, [70, 70, 73]), (64260, [70, 70, 76]), (64261, [83, 84]), (64262, [83, 84]),
    (64275, [1348, 1350]), (64276, [1348, 1333]), (64277, [1348, 1339]), (64278, [1358, 1350]),
    (64279, [1348, 1341]), (65345, [65313]), (65346, [65314]), (65347, [65315]), (65348, [65316]),
    (65349, [65317]), (65350, [65318]), (65351, [65319]), (65352, [65320]), (65353, [65321])
  ]),
  (66630, [
    (65354, [65322]), (65355, [65323]), (65356, [65324]), (65357, [65325]), (65358, [65326]),
    (65359, [65327]), (65360, [65328]), (65361, [65329]), (65362, [65330]), (65363, [65331]),
    (65364, [65332]), (65365, [65333]), (65366, [65334]), (65367, [65335]), (65368, [65336]),
    (65369, [65337]), (65370, [65338]), (66600, [66560]), (66601, [66561]), (66602, [66562]),
    (66603, [66563]), (66604, [66564]), (66605, [66565]), (66606, [66566]), (66607, [66567]),
    (66608, [66568]), (66609, [66569]), (66610, [66570]), (66611, [66571]), (66612, [66572]),
    (66613, [66573]), (66614, [66574]), (66615, [66575]), (66616, [66576]), (66617, [66577]),
    (66618, [66578]), (66619, [66579]), (66620, [66580]), (66621, [66581]), (66622, [66582]),
    (66623, [66583]), (66624, [66584]), (66625, [66585]), (66626, [66586]), (66627, [66587]),
    (66628, [66588]), (66629, [66589]), (66630, [66590])
  ]),
  (66969, [
    (66631, [66591]), (66632, [66592]), (66633, [66593]), (66634, [66594]), (66635, [66595]),
    (66636, [66596]), (66637, [66597]), (66638, [66598]), (66639, [66599]), (66776, [66736]),
    (66777, [66737]), (66778, [66738]), (66779, [66739]), (66780, [66740]), (66781, [66741]),
    (66782, [66742]), (66783, [66743]), (66784, [66744]), (66785, [66745]), (66786, [66746]),
    (66787, [66747]), (66788, [66748]), (66789, [66749]), (66790, [66750]), (66791, [66751]),
    (66792, [66752]), (66793, [66753]), (66794, [66754]), (66795, [66755]), (66796, [66756]),
    (66797, [66757]), (66798, [66758]), (66799, [66759]), (66800, [66760]), (66801, [66761]),
    (66802, [66762]), (66803, [66763]), (66804, [66764]), (66805, [66765]), (66806, [66766]),
    (66807, [66767]), (66808, [66768]), (66809, [66769]), (66810, [66770]), (66811, [66771]),
    (66967, [66928]), (66968, [66929]), (66969, [66930])
  ]),
  (68815, [
    (66970, [66931]), (66971, [66932]), (66972, [66933]), (66973, [66934]), (66974, [66935]),
    (66975, [66936]), (66976, [66937]), (66977, [66938]), (66979, [66940]), (66980, [66941]),
    (66981, [66942]), (66982, [66943]), (66983, [66944]), (66984, [66945]), (66985, [66946]),
    (66986, [66947]), (66987, [66948]), (66988, [66949]), (66989, [66950]), (66990, [66951]),
    (66991, [66952]), (66992, [66953]), (66993, [66954]), (66995, [66956]), (66996, [66957]),
    (66997, [66958]), (66998, [66959]), (66999, [66960]), (67000, [66961]), (67001, [66962]),
    (67003, [66964]), (67004, [66965]), (68800, [68736]), (68801, [68737]), (68802, [68738]),
    (68803, [68739]), (68804, [68740]), (68805, [68741]), (68806, [68742]), (68807, [68743]),
    (68808, [68744]), (68809, [68745]), (68810, [68746]), (68811, [68747]), (68812, [68748]),
    (68813, [68749]), (68814, [68750]), (68815, [68751])
  ]),
  (71884, [
    (68816, [68752]), (68817, [68753]), (68818, [68754]), (68819, [68755]), (68820, [68756]),
    (68821, [68757]), (68822, [68758]), (68823, [68759]), (68824, [68760]), (68825, [68761]),
    (68826, [68762]), (68827, [68763]), (68828, [68764]), (68829, [68765]), (68830, [68766]),
    (68831, [68767]), (68832, [68768]), (68833, [68769]), (68834, [68770]), (68835, [68771]),
    (68836, [68772]), (68837, [68773]), (68838, [68774]), (68839, [68775]), (68840, [68776]),
    (68841, [68777]), (68842, [68778]), (68843, [68779]), (68844, [68780]), (68845, [68781]),
    (68846, [68782]), (68847, [68783]), (68848, [68784]), (68849, [68785]), (68850, [68786]),
    (71872, [71840]), (71873, [71841]), (71874, [71842]), (71875, [71843]), (71876, [71844]),
    (71877, [71845]), (71878, [71846]), (71879, [71847]), (71880, [71848]), (71881, [71849]),
    (71882, [71850]), (71883, [71851]), (71884, [71852])
  ]),
  (93820, [
    (71885, [71853]), (71886, [71854]), (71887, [71855]), (71888, [71856]), (71889, [71857]),
    (71890, [71858]), (71891, [71859]), (71892, [71860]), (71893, [71861]), (71894, [71862]),
    (71895, [71863]), (71896, [71864]), (71897, [71865]), (71898, [71866]), (71899, [71867]),
    (71900, [71868]), (71901, [71869]), (71902, [71870]), (71903, [71871]), (93792, [93760]),
    (93793, [93761]), (93794, [93762]), (93795, [93763]), (93796, [93764]), (93797, [93765]),
    (93798, [93766]), (93799, [93767]), (93800, [93768]), (93801, [93769]), (93802, [93770]),
    (93803, [93771]), (93804, [93772]), (93805, [93773]), (93806, [93774]), (93807, [93775]),
    (93808, [93776]), (93809, [93777]), (93810, [93778]), (93811, [93779]), (93812, [93780]),
    (93813, [93781]), (93814, [93782]), (93815, [93783]), (93816, [93784]), (93817, [93785]),
    (93818, [93786]), (93819, [93787]), (93820, [93788])
  ]),
  (125251, [
    (93821, [93789]), (93822, [93790]), (93823, [93791]), (125218, [125184]), (125219, [125185]),
    (125220, [125186]), (125221, [125187]), (125222, [125188]), (125223, [125189]),
    (125224, [125190]), (125225, [125191]), (125226, [125192]), (125227, [125193]),
    (125228, [125194]), (125229, [125195]), (125230, [125196]), (125231, [125197]),
    (125232, [125198]), (125233, [125199]), (125234, [125200]), (125235, [125201]),
    (125236, [125202]), (125237, [125203]), (125238, [125204]), (125239, [125205]),
    (125240, [125206]), (125241, [125207]), (125242, [125208]), (125243, [125209]),
    (125244, [125210]), (125245, [125211]), (125246, [125212]), (125247, [125213]),
    (125248, [125214]), (125249, [125215]), (125250, [125216]), (125251, [125217])
  ])
]

/-- The lower-case mapping of the Unicode Character Database (version 14.0,
`UnicodeData.txt` with the unconditional mappings of `SpecialCasing.txt`), laid
out as `upperCaseTable`. -/
def lowerCaseTable : List (Nat × List (Nat × List Nat)) := [
  (213, [
    (65, [97]), (66, [98]), (67, [99]), (68, [100]), (69, [101]), (70, [102]), (71, [103]),
    (72, [104]), (73, [105]), (74, [106]), (75, [107]), (76, [108]), (77, [109]), (78, [110]),
    (79, [111]), (80, [112]), (81, [113]), (82, [114]), (83, [115]), (84, [116]), (85, [117]),
    (86, [118]), (87, [119]), (88, [120]), (89, [121]), (90, [122]), (192, [224]), (193, [225]),
    (194, [226]), (195, [227]), (196, [228]), (197, [229]), (198, [230]), (199, [231]),
    (200, [232]), (201, [233]), (202, [234]), (203, [235]), (204, [236]), (205, [237]),
    (206, [238]), (207, [239]), (208, [240]), (209, [241]), (210, [242]), (211, [243]),
    (212, [244]), (213, [245])
  ]),
  (336, [
    (214, [246]), (216, [248]), (217, [249]), (218, [250]), (219, [251]), (220, [252]),
    (221, [253]), (222, [254]), (256, [257]), (258, [259]), (260, [261]), (262, [263]),
    (264, [265]), (266, [267]), (268, [269]), (270, [271]), (272, [273]), (274, [275]),
    (276, [277]), (278, [279]), (280, [281]), (282, [283]), (284, [285]), (286, [287]),
    (288, [289]), (290, [291]), (292, [293]), (294, [295]), (296, [297]), (298, [299]),
    (300, [301]), (302, [303]), (304, [105, 775]), (306, [307]), (308, [309]), (310, [311]),
    (313, [314]), (315, [316]), (317, [318]), (319, [320]), (321, [322]), (323, [324]),
    (325, [326]), (327, [328]), (330, [331]), (332, [333]), (334, [335]), (336, [337])
  ]),
  (423, [
    (338, [339]), (340, [341]), (342, [343]), (344, [345]), (346, [347]), (348, [349]),
    (350, [351]), (352, [353]), (354, [355]), (356, [357]), (358, [359]), (360, [361]),
    (362, [363]), (364, [365]), (366, [367]), (368, [369]), (370, [371]), (372, [373]),
    (374, [375]), (376, [255]), (377, [378]), (379, [380]), (381, [382]), (385, [595]),
    (386, [387]), (388, [389]), (390, [596]), (391, [392]), (393, [598]), (394, [599]),
    (395, [396]), (398, [477]), (399, [601]), (400, [603]), (401, [402]), (403, [608]),
    (404, [611]), (406, [617]), (407, [616]), (408, [409]), (412, [623]), (413, [626]),
    (415, [629]), (416, [417]), (418, [419]), (420, [421]), (422, [640]), (423, [424])
  ]),
  (520, [
    (425, [643]), (428, [429]), (430, [648]), (431, [432]), (433, [650]), (434, [651]),
    (435, [436]), (437, [438]), (439, [658]), (440, [441]), (444, [445]), (452, [454]),
    (453, [454]), (455, [457]), (456, [457]), (458, [460]), (459, [460]), (461, [462]),
    (463, [464]), (465, [466]), (467, [468]), (469, [470]), (471, [472]), (473, [474]),
    (475, [476]), (478, [479]), (480, [481]), (482, [483]), (484, [485]), (486, [487]),
    (488, [489]), (490, [491]), (492, [493]), (494, [495]), (497, [499]), (498, [499]),
    (500, [501]), (502, [405]), (503, [447]), (504, [505]), (506, [507]), (508, [509]),
    (510, [511]), (512, [513]), (514, [515]), (516, [517]), (518, [519]), (520, [521])
  ]),
  (915, [
    (522, [523]), (524, [525]), (526, [527]), (528, [529]), (530, [531]), (532, [533]),
    (534, [535]), (536, [537]), (538, [539]), (540, [541]), (542, [543]), (544, [414]),
    (546, [547]), (548, [549]), (550, [551]), (552, [553]), (554, [555]), (556, [557]),
    (558, [559]), (560, [561]), (562, [563]), (570, [11365]), (571, [572]), (573, [410]),
    (574, [11366]), (577, [578]), (579, [384]), (580, [649]), (581, [652]), (582, [583]),
    (584, [585]), (586, [587]), (588, [589]), (590, [591]), (880, [881]), (882, [883]),
    (886, [887]), (895, [1011]), (902, [940]), (904, [941]), (905, [942]), (906, [943]),
    (908, [972]), (910, [973]), (911, [974]), (913, [945]), (914, [946]), (915, [947])
  ]),
  (1028, [
    (916, [948]), (917, [949]), (918, [950]), (919, [951]), (920, [952]), (921, [953]),
    (922, [954]), (923, [955]), (924, [956]), (925, [957]), (926, [958]), (927, [959]),
    (928, [960]), (929, [961]), (931, [963]), (932, [964]), (933, [965]), (934, [966]),
    (935, [967]), (936, [968]), (937, [969]), (938, [970]), (939, [971]), (975, [983]),
    (984, [985]), (986, [987]), (988, [989]), (990, [991]), (992, [993]), (994, [995]),
    (996, [997]), (998, [999]), (1000, [1001]), (1002, [1003]), (1004, [1005]), (1006, [1007]),
    (1012, [952]), (1015, [1016]), (1017, [1010]), (1018, [1019]), (1021, [891]), (1022, [892]),
    (1023, [893]), (1024, [1104]), (1025, [1105]), (1026, [1106]), (1027, [1107]), (1028, [1108])
  ]),
  (1128, [
    (1029, [1109]), (1030, [1110]), (1031, [1111]), (1032, [1112]), (1033, [1113]),
    (1034, [1114]), (1035, [1115]), (1036, [1116]), (1037, [1117]), (1038, [1118]),
    (1039, [1119]), (1040, [1072]), (1041, [1073]), (1042, [1074]), (1043, [1075]),
    (1044, [1076]), (1045, [1077]), (1046, [1078]), (1047, [1079]), (1048, [1080]),
    (1049, [1081]), (1050, [1082]), (1051, [1083]), (1052, [1084]), (1053, [1085]),
    (1054, [1086]), (1055, [1087]), (1056, [1088]), (1057, [1089]), (1058, [1090]),
    (1059, [1091]), (1060, [1092]), (1061, [1093]), (1062, [1094]), (1063, [1095]),
    (1064, [1096]), (1065, [1097]), (1066, [1098]), (1067, [1099]), (1068, [1100]),
    (1069, [1101]), (1070, [1102]), (1071, [1103]), (1120, [1121]), (1122, [1123]),
    (1124, [1125]), (1126, [1127]), (1128, [1129])
  ]),
  (1232, [
    (1130, [1131]), (1132, [1133]), (1134, [1135]), (1136, [1137]), (1138, [1139]),
    (1140, [1141]), (1142, [1143]), (1144, [1145]), (1146, [1147]), (1148, [1149]),
    (1150, [1151]), (1152, [1153]), (1162, [1163]), (1164, [1165]), (1166, [1167]),
    (1168, [1169]), (1170, [1171]), (1172, [1173]), (1174, [1175]), (1176, [1177]),
    (1178, [1179]), (1180, [1181]), (1182, [1183]), (1184, [1185]), (1186, [1187]),
    (1188, [1189]), (1190, [1191]), (1192, [1193]), (1194, [1195]), (1196, [1197]),
    (1198, [1199]), (1200, [1201]), (1202, [1203]), (1204, [1205]), (1206, [1207]),
    (1208, [1209]), (1210, [1211]), (1212, [1213]), (1214, [1215]), (1216, [1231]),
    (1217, [1218]), (1219, [1220]), (1221, [1222]), (1223, [1224]), (1225, [1226]),
    (1227, [1228]), (1229, [1230]), (1232, [1233])
  ]),
  (1329, [
    (1234, [1235]), (1236, [1237]), (1238, [1239]), (1240, [1241]), (1242, [1243]),
    (1244, [1245]), (1246, [1247]), (1248, [1249]), (1250, [1251]), (1252, [1253]),
    (1254, [1255]), (1256, [1257]), (1258, [1259]), (1260, [1261]), (1262, [1263]),
    (1264, [1265]), (1266, [1267]), (1268, [1269]), (1270, [1271]), (1272, [1273]),
    (1274, [1275]), (1276, [1277]), (1278, [1279]), (1280, [1281]), (1282, [1283]),
    (1284, [1285]), (1286, [1287]), (1288, [1289]), (1290, [1291]), (1292, [1293]),
    (1294, [1295]), (1296, [1297]), (1298, [1299]), (1300, [1301]), (1302, [1303]),
    (1304, [1305]), (1306, [1307]), (1308, [1309]), (1310, [1311]), (1312, [1313]),
    (1314, [1315]), (1316, [1317]), (1318, [1319]), (1320, [1321]), (1322, [1323]),
    (1324, [1325]), (1326, [1327]), (1329, [1377])
  ]),
  (4266, [
    (1330, [1378]), (1331, [1379]), (1332, [1380]), (1333, [1381]), (1334, [1382]),
    (1335, [1383]), (1336, [1384]), (1337, [1385]), (1338, [1386]), (1339, [1387]),
    (1340, [1388]), (1341, [1389]), (1342, [1390]), (1343, [1391]), (1344, [1392]),
    (1345, [1393]), (1346, [1394]), (1347, [1395]), (1348, [1396]), (1349, [1397]),
    (1350, [1398]), (1351, [1399]), (1352, [1400]), (1353, [1401]), (1354, [1402]),
    (1355, [1403]), (1356, [1404]), (1357, [1405]), (1358, [1406]), (1359, [1407]),
    (1360, [1408]), (1361, [1409]), (1362, [1410]), (1363, [1411]), (1364, [1412]),
    (1365, [1413]), (1366, [1414]), (4256, [11520]), (4257, [11521]), (4258, [11522]),
    (4259, [11523]), (4260, [11524]), (4261, [11525]), (4262, [11526]), (4263, [11527]),
    (4264, [11528]), (4265, [11529]), (4266, [11530])
  ]),
  (5042, [
    (4267, [11531]), (4268, [11532]), (4269, [11533]), (4270, [11534]), (4271, [11535]),
    (4272, [11536]), (4273, [11537]), (4274, [11538]), (4275, [11539]), (4276, [11540]),
    (4277, [11541]), (4278, [11542]), (4279, [11543]), (4280, [11544]), (4281, [11545]),
    (4282, [11546]), (4283, [11547]), (4284, [11548]), (4285, [11549]), (4286, [11550]),
    (4287, [11551]), (4288, [11552]), (4289, [11553]), (4290, [11554]), (4291, [11555]),
    (4292, [11556]), (4293, [11557]), (4295, [11559]), (4301, [11565]), (5024, [43888]),
    (5025, [43889]), (5026, [43890]), (5027, [43891]), (5028, [43892]), (5029, [43893]),
    (5030, [43894]), (5031, [43895]), (5032, [43896]), (5033, [43897]), (5034, [43898]),
    (5035, [43899]), (5036, [43900]), (5037, [43901]), (5038, [43902]), (5039, [43903]),
    (5040, [43904]), (5041, [43905]), (5042, [43906])
  ]),
  (5090, [
    (5043, [43907]), (5044, [43908]), (5045, [43909]), (5046, [43910]), (5047, [43911]),
    (5048, [43912]), (5049, [43913]), (5050, [43914]), (5051, [43915]), (5052, [43916]),
    (5053, [43917]), (5054, [43918]), (5055, [43919]), (5056, [43920]), (5057, [43921]),
    (5058, [43922]), (5059, [43923]), (5060, [43924]), (5061, [43925]), (5062, [43926]),
    (5063, [43927]), (5064, [43928]), (5065, [43929]), (5066, [43930]), (5067, [43931]),
    (5068, [43932]), (5069, [43933]), (5070, [43934]), (5071, [43935]), (5072, [43936]),
    (5073, [43937]), (5074, [43938]), (5075, [43939]), (5076, [43940]), (5077, [43941]),
    (5078, [43942]), (5079, [43943]), (5080, [43944]), (5081, [43945]), (5082, [43946]),
    (5083, [43947]), (5084, [43948]), (5085, [43949]), (5086, [43950]), (5087, [43951]),
    (5088, [43952]), (5089, [43953]), (5090, [43954])
  ]),
  (7340, [
    (5091, [43955]), (5092, [43956]), (5093, [43957]), (5094, [43958]), (5095, [43959]),
    (5096, [43960]), (5097, [43961]), (5098, [43962]), (5099, [43963]), (5100, [43964]),
    (5101, [43965]), (5102, [43966]), (5103, [43967]), (5104, [5112]), (5105, [5113]),
    (5106, [5114]), (5107, [5115]), (5108, [5116]), (5109, [5117]), (7312, [4304]),
    (7313, [4305]), (7314, [4306]), (7315, [4307]), (7316, [4308]), (7317, [4309]),
    (7318, [4310]), (7319, [4311]), (7320, [4312]), (7321, [4313]), (7322, [4314]),
    (7323, [4315]), (7324, [4316]), (7325, [4317]), (7326, [4318]), (7327, [4319]),
    (7328, [4320]), (7329, [4321]), (7330, [4322]), (7331, [4323]), (7332, [4324]),
    (7333, [4325]), (7334, [4326]), (7335, [4327]), (7336, [4328]), (7337, [4329]),
    (7338, [4330]), (7339, [4331]), (7340, [4332])
  ]),
  (7740, [
    (7341, [4333]), (7342, [4334]), (7343, [4335]), (7344, [4336]), (7345, [4337]),
    (7346, [4338]), (7347, [4339]), (7348, [4340]), (7349, [4341]), (7350, [4342]),
    (7351, [4343]), (7352, [4344]), (7353, [4345]), (7354, [4346]), (7357, [4349]),
    (7358, [4350]), (7359, [4351]), (7680, [7681]), (7682, [7683]), (7684, [7685]),
    (7686, [7687]), (7688, [7689]), (7690, [7691]), (7692, [7693]), (7694, [7695]),
    (7696, [7697]), (7698, [7699]), (7700, [7701]), (7702, [7703]), (7704, [7705]),
    (7706, [7707]), (7708, [7709]), (7710, [7711]), (7712, [7713]), (7714, [7715]),
    (7716, [7717]), (7718, [7719]), (7720, [7721]), (7722, [7723]), (7724, [7725]),
    (7726, [7727]), (7728, [7729]), (7730, [7731]), (7732, [7733]), (7734, [7735]),
    (7736, [7737]), (7738, [7739]), (7740, [7741])
  ]),
  (7844, [
    (7742, [7743]), (7744, [7745]), (7746, [7747]), (7748, [7749]), (7750, [7751]),
    (7752, [7753]), (7754, [7755]), (7756, [7757]), (7758, [7759]), (7760, [7761]),
    (7762, [7763]), (7764, [7765]), (7766, [7767]), (7768, [7769]), (7770, [7771]),
    (7772, [7773]), (7774, [7775]), (7776, [7777]), (7778, [7779]), (7780, [7781]),
    (7782, [7783]), (7784, [7785]), (7786, [7787]), (7788, [7789]), (7790, [7791]),
    (7792, [7793]), (7794, [7795]), (7796, [7797]), (7798, [7799]), (7800, [7801]),
    (7802, [7803]), (7804, [7805]), (7806, [7807]), (7808, [7809]), (7810, [7811]),
    (7812, [7813]), (7814, [7815]), (7816, [7817]), (7818, [7819]), (7820, [7821]),
    (7822, [7823]), (7824, [7825]), (7826, [7827]), (7828, [7829]), (7838, [223]), (7840, [7841]),
    (7842, [7843]), (7844, [7845])
  ]),
  (7946, [
    (7846, [7847]), (7848, [7849]), (7850, [7851]), (7852, [7853]), (7854, [7855]),
    (7856, [7857]), (7858, [7859]), (7860, [7861]), (7862, [7863]), (7864, [7865]),
    (7866, [7867]), (7868, [7869]), (7870, [7871]), (7872, [7873]), (7874, [7875]),
    (7876, [7877]), (7878, [7879]), (7880, [7881]), (7882, [7883]), (7884, [7885]),
    (7886, [7887]), (7888, [7889]), (7890, [7891]), (7892, [7893]), (7894, [7895]),
    (7896, [7897]), (7898, [7899]), (7900, [7901]), (7902, [7903]), (7904, [7905]),
    (7906, [7907]), (7908, [7909]), (7910, [7911]), (7912, [7913]), (7914, [7915]),
    (7916, [7917]), (7918, [7919]), (7920, [7921]), (7922, [7923]), (7924, [7925]),
    (7926, [7927]), (7928, [7929]), (7930, [7931]), (7932, [7933]), (7934, [7935]),
    (7944, [7936]), (7945, [7937]), (7946, [7938])
  ]),
  (8074, [
    (7947, [7939]), (7948, [7940]), (7949, [7941]), (7950, [7942]), (7951, [7943]),
    (7960, [7952]), (7961, [7953]), (7962, [7954]), (7963, [7955]), (7964, [7956]),
    (7965, [7957]), (7976, [7968]), (7977, [7969]), (7978, [7970]), (7979, [7971]),
    (7980, [7972]), (7981, [7973]), (7982, [7974]), (7983, [7975]), (7992, [7984]),
    (7993, [7985]), (7994, [7986]), (7995, [7987]), (7996, [7988]), (7997, [7989]),
    (7998, [7990]), (7999, [7991]), (8008, [8000]), (8009, [8001]), (8010, [8002]),
    (8011, [8003]), (8012, [8004]), (8013, [8005]), (8025, [8017]), (8027, [8019]),
    (8029, [8021]), (8031, [8023]), (8040, [8032]), (8041, [8033]), (8042, [8034]),
    (8043, [8035]), (8044, [8036]), (8045, [8037]), (8046, [8038]), (8047, [8039]),
    (8072, [8064]), (8073, [8065]), (8074, [8066])
  ]),
  (8491, [
    (8075, [8067]), (8076, [8068]), (8077, [8069]), (8078, [8070]), (8079, [8071]),
    (8088, [8080]), (8089, [8081]), (8090, [8082]), (8091, [8083]), (8092, [8084]),
    (8093, [8085]), (8094, [8086]), (8095, [8087]), (8104, [8096]), (8105, [8097]),
    (8106, [8098]), (8107, [8099]), (8108, [8100]), (8109, [8101]), (8110, [8102]),
    (8111, [8103]), (8120, [8112]), (8121, [8113]), (8122, [8048]), (8123, [8049]),
    (8124, [8115]), (8136, [8050]), (8137, [8051]), (8138, [8052]), (8139, [8053]),
    (8140, [8131]), (8152, [8144]), (8153, [8145]), (8154, [8054]), (8155, [8055]),
    (8168, [8160]), (8169, [8161]), (8170, [8058]), (8171, [8059]), (8172, [8165]),
    (8184, [8056]), (8185, [8057]), (8186, [8060]), (8187, [8061]), (8188, [8179]), (8486, [969]),
    (8490, [107]), (8491, [229])
  ]),
  (11267, [
    (8498, [8526]), (8544, [8560]), (8545, [8561]), (8546, [8562]), (8547, [8563]),
    (8548, [8564]), (8549, [8565]), (8550, [8566]), (8551, [8567]), (8552, [8568]),
    (8553, [8569]), (8554, [8570]), (8555, [8571]), (8556, [8572]), (8557, [8573]),
    (8558, [8574]), (8559, [8575]), (8579, [8580]), (9398, [9424]), (9399, [9425]),
    (9400, [9426]), (9401, [9427]), (9402, [9428]), (9403, [9429]), (9404, [9430]),
    (9405, [9431]), (9406, [9432]), (9407, [9433]), (9408, [9434]), (9409, [9435]),
    (9410, [9436]), (9411, [9437]), (9412, [9438]), (9413, [9439]), (9414, [9440]),
    (9415, [9441]), (9416, [9442]), (9417, [9443]), (9418, [9444]), (9419, [9445]),
    (9420, [9446]), (9421, [9447]), (9422, [9448]), (9423, [9449]), (11264, [11312]),
    (11265, [11313]), (11266, [11314]), (11267, [11315])
  ]),
  (11364, [
    (11268, [11316]), (11269, [11317]), (11270, [11318]), (11271, [11319]), (11272, [11320]),
    (11273, [11321]), (11274, [11322]), (11275, [11323]), (11276, [11324]), (11277, [11325]),
    (11278, [11326]), (11279, [11327]), (11280, [11328]), (11281, [11329]), (11282, [11330]),
    (11283, [11331]), (11284, [11332]), (11285, [11333]), (11286, [11334]), (11287, [11335]),
    (11288, [11336]), (11289, [11337]), (11290, [11338]), (11291, [11339]), (11292, [11340]),
    (11293, [11341]), (11294, [11342]), (11295, [11343]), (11296, [11344]), (11297, [11345]),
    (11298, [11346]), (11299, [11347]), (11300, [11348]), (11301, [11349]), (11302, [11350]),
    (11303, [11351]), (11304, [11352]), (11305, [11353]), (11306, [11354]), (11307, [11355]),
    (11308, [11356]), (11309, [11357]), (11310, [11358]), (11311, [11359]), (11360, [11361]),
    (11362, [619]), (11363, [7549]), (11364, [637])
  ]),
  (11464, [
    (11367, [11368]), (11369, [11370]), (11371, [11372]), (11373, [593]), (11374, [625]),
    (11375, [592]), (11376, [594]), (11378, [11379]), (11381, [11382]), (11390, [575]),
    (11391, [576]), (11392, [11393]), (11394, [11395]), (11396, [11397]), (11398, [11399]),
    (11400, [11401]), (11402, [11403]), (11404, [11405]), (11406, [11407]), (11408, [11409]),
    (11410, [11411]), (11412, [11413]), (11414, [11415]), (11416, [11417]), (11418, [11419]),
    (11420, [11421]), (11422, [11423]), (11424, [11425]), (11426, [11427]), (11428, [11429]),
    (11430, [11431]), (11432, [11433]), (11434, [11435]), (11436, [11437]), (11438, [11439]),
    (11440, [11441]), (11442, [11443]), (11444, [11445]), (11446, [11447]), (11448, [11449]),
    (11450, [11451]), (11452, [11453]), (11454, [11455]), (11456, [11457]), (11458, [11459]),
    (11460, [11461]), (11462, [11463]), (11464, [11465])
  ]),
  (42640, [
    (11466, [11467]), (11468, [11469]), (11470, [11471]), (11472, [11473]), (11474, [11475]),
    (11476, [11477]), (11478, [11479]), (11480, [11481]), (11482, [11483]), (11484, [11485]),
    (11486, [11487]), (11488, [11489]), (11490, [11491]), (11499, [11500]), (11501, [11502]),
    (11506, [11507]), (42560, [42561]), (42562, [42563]), (42564, [42565]), (42566, [42567]),
    (42568, [42569]), (42570, [42571]), (42572, [42573]), (42574, [42575]), (42576, [42577]),
    (42578, [42579]), (42580, [42581]), (42582, [42583]), (42584, [42585]), (42586, [42587]),
    (42588, [42589]), (42590, [42591]), (42592, [42593]), (42594, [42595]), (42596, [42597]),
    (42598, [42599]), (42600, [42601]), (42602, [42603]), (42604, [42605]), (42624, [42625]),
    (42626, [42627]), (42628, [42629]), (42630, [42631]), (42632, [42633]), (42634, [42635]),
    (42636, [42637]), (42638, [42639]), (42640, [42641])
  ]),
  (42880, [
    (42642, [42643]), (42644, [42645]), (42646, [42647]), (42648, [42649]), (42650, [42651]),
    (42786, [42787]), (42788, [42789]), (42790, [42791]), (42792, [42793]), (42794, [42795]),
    (42796, [42797]), (42798, [42799]), (42802, [42803]), (42804, [42805]), (42806, [42807]),
    (42808, [42809]), (42810, [42811]), (42812, [42813]), (42814, [42815]), (42816, [42817]),
    (42818, [42819]), (42820, [42821]), (42822, [42823]), (42824, [42825]), (42826, [42827]),
    (42828, [42829]), (42830, [42831]), (42832, [42833]), (42834, [42835]), (42836, [42837]),
    (42838, [42839]), (42840, [42841]), (42842, [42843]), (42844, [42845]), (42846, [42847]),
    (42848, [42849]), (42850, [42851]), (42852, [42853]), (42854, [42855]), (42856, [42857]),
    (42858, [42859]), (42860, [42861]), (42862, [42863]), (42873, [42874]), (42875, [42876]),
    (42877, [7545]), (42878, [42879]), (42880, [42881])
  ]),
  (65317, [
    (42882, [42883]), (42884, [42885]), (42886, [42887]), (42891, [42892]), (42893, [613]),
    (42896, [42897]), (42898, [42899]), (42902, [42903]), (42904, [42905]), (42906, [42907]),
    (42908, [42909]), (42910, [42911]), (42912, [42913]), (42914, [42915]), (42916, [42917]),
    (42918, [42919]), (42920, [42921]), (42922, [614]), (42923, [604]), (42924, [609]),
    (42925, [620]), (42926, [618]), (42928, [670]), (42929, [647]), (42930, [669]),
    (42931, [43859]), (42932, [42933]), (42934, [42935]), (42936, [42937]), (42938, [42939]),
    (42940, [42941]), (42942, [42943]), (42944, [42945]), (42946, [42947]), (42948, [42900]),
    (42949, [642]), (42950, [7566]), (42951, [42952]), (42953, [42954]), (42960, [42961]),
    (42966, [42967]), (42968, [42969]), (42997, [42998]), (65313, [65345]), (65314, [65346]),
    (65315, [65347]), (65316, [65348]), (65317, [65349])
  ]),
  (66586, [
    (65318, [65350]), (65319, [65351]), (65320, [65352]), (65321, [65353]), (65322, [65354]),
    (65323, [65355]), (65324, [65356]), (65325, [65357]), (65326, [65358]), (65327, [65359]),
    (65328, [65360]), (65329, [65361]), (65330, [65362]), (65331, [65363]), (65332, [65364]),
    (65333, [65365]), (65334, [65366]), (65335, [65367]), (65336, [65368]), (65337, [65369]),
    (65338, [65370]), (66560, [66600]), (66561, [66601]), (66562, [66602]), (66563, [66603]),
    (66564, [66604]), (66565, [66605]), (66566, [66606]), (66567, [66607]), (66568, [66608]),
    (66569, [66609]), (66570, [66610]), (66571, [66611]), (66572, [66612]), (66573, [66613]),
    (66574, [66614]), (66575, [66615]), (66576, [66616]), (66577, [66617]), (66578, [66618]),
    (66579, [66619]), (66580, [66620]), (66581, [66621]), (66582, [66622]), (66583, [66623]),
    (66584, [66624]), (66585, [66625]), (66586, [66626])
  ]),
  (66770, [
    (66587, [66627]), (66588, [66628]), (66589, [66629]), (66590, [66630]), (66591, [66631]),
    (66592, [66632]), (66593, [66633]), (66594, [66634]), (66595, [66635]), (66596, [66636]),
    (66597, [66637]), (66598, [66638]), (66599, [66639]), (66736, [66776]), (66737, [66777]),
    (66738, [66778]), (66739, [66779]), (66740, [66780]), (66741, [66781]), (66742, [66782]),
    (66743, [66783]), (66744, [66784]), (66745, [66785]), (66746, [66786]), (66747, [66787]),
    (66748, [66788]), (66749, [66789]), (66750, [66790]), (66751, [66791]), (66752, [66792]),
    (66753, [66793]), (66754, [66794]), (66755, [66795]), (66756, [66796]), (66757, [66797]),
    (66758, [66798]), (66759, [66799]), (66760, [66800]), (66761, [66801]), (66762, [66802]),
    (66763, [66803]), (66764, [66804]), (66765, [66805]), (66766, [66806]), (66767, [66807]),
    (66768, [66808]), (66769, [66809]), (66770, [66810])
  ]),
  (68747, [
    (66771, [66811]), (66928, [66967]), (66929, [66968]), (66930, [66969]), (66931, [66970]),
    (66932, [66971]), (66933, [66972]), (66934, [66973]), (66935, [66974]), (66936, [66975]),
    (66937, [66976]), (66938, [66977]), (66940, [66979]), (66941, [66980]), (66942, [66981]),
    (66943, [66982]), (66944, [66983]), (66945, [66984]), (66946, [66985]), (66947, [66986]),
    (66948, [66987]), (66949, [66988]), (66950, [66989]), (66951, [66990]), (66952, [66991]),
    (66953, [66992]), (66954, [66993]), (66956, [66995]), (66957, [66996]), (66958, [66997]),
    (66959, [66998]), (66960, [66999]), (66961, [67000]), (66962, [67001]), (66964, [67003]),
    (66965, [67004]), (68736, [68800]), (68737, [68801]), (68738, [68802]), (68739, [68803]),
    (68740, [68804]), (68741, [68805]), (68742, [68806]), (68743, [68807]), (68744, [68808]),
    (68745, [68809]), (68746, [68810]), (68747, [68811])
  ]),
  (71848, [
    (68748, [68812]), (68749, [68813]), (68750, [68814]), (68751, [68815]), (68752, [68816]),
    (68753, [68817]), (68754, [68818]), (68755, [68819]), (68756, [68820]), (68757, [68821]),
    (68758, [68822]), (68759, [68823]), (68760, [68824]), (68761, [68825]), (68762, [68826]),
    (68763, [68827]), (68764, [68828]), (68765, [68829]), (68766, [68830]), (68767, [68831]),
    (68768, [68832]), (68769, [68833]), (68770, [68834]), (68771, [68835]), (68772, [68836]),
    (68773, [68837]), (68774, [68838]), (68775, [68839]), (68776, [68840]), (68777, [68841]),
    (68778, [68842]), (68779, [68843]), (68780, [68844]), (68781, [68845]), (68782, [68846]),
    (68783, [68847]), (68784, [68848]), (68785, [68849]), (68786, [68850]), (71840, [71872]),
    (71841, [71873]), (71842, [71874]), (71843, [71875]), (71844, [71876]), (71845, [71877]),
    (71846, [71878]), (71847, [71879]), (71848, [71880])
  ]),
  (93784, [
    (71849, [71881]), (71850, [71882]), (71851, [71883]), (71852, [71884]), (71853, [71885]),
    (71854, [71886]), (71855, [71887]), (71856, [71888]), (71857, [71889]), (71858, [71890]),
    (71859, [71891]), (71860, [71892]), (71861, [71893]), (71862, [71894]), (71863, [71895]),
    (71864, [71896]), (71865, [71897]), (71866, [71898]), (71867, [71899]), (71868, [71900]),
    (71869, [71901]), (71870, [71902]), (71871, [71903]), (93760, [93792]), (93761, [93793]),
    (93762, [93794]), (93763, [93795]), (93764, [93796]), (93765, [93797]), (93766, [93798]),
    (93767, [93799]), (93768, [93800]), (93769, [93801]), (93770, [93802]), (93771, [93803]),
    (93772, [93804]), (93773, [93805]), (93774, [93806]), (93775, [93807]), (93776, [93808]),
    (93777, [93809]), (93778, [93810]), (93779, [93811]), (93780, [93812]), (93781, [93813]),
    (93782, [93814]), (93783, [93815]), (93784, [93816])
  ]),
  (125217, [
    (93785, [93817]), (93786, [93818]), (93787, [93819]), (93788, [93820]), (93789, [93821]),
    (93790, [93822]), (93791, [93823]), (125184, [125218]), (125185, [125219]),
    (125186, [125220]), (125187, [125221]), (125188, [125222]), (125189, [125223]),
    (125190, [125224]), (125191, [125225]), (125192, [125226]), (125193, [125227]),
    (125194, [125228]), (125195, [125229]), (125196, [125230]), (125197, [125231]),
    (125198, [125232]), (125199, [125233]), (125200, [125234]), (125201, [125235]),
    (125202, [125236]), (125203, [125237]), (125204, [125238]), (125205, [125239]),
    (125206, [125240]), (125207, [125241]), (125208, [125242]), (125209, [125243]),
    (125210, [125244]), (125211, [125245]), (125212, [125246]), (125213, [125247]),
    (125214, [125248]), (125215, [125249]), (125216, [125250]), (125217, [125251])
  ])
]

/-- The code points with the property `Cased` and without the property
`Case_Ignorable` (Unicode 14.0), as inclusive ranges in ascending order, in
blocks headed by their last code point. -/
def casedRanges : List (Nat × List (Nat × Nat)) := [
  (8124, [
    (65, 90), (97, 122), (170, 170), (181, 181), (186, 186), (192, 214), (216, 246), (248, 442),
    (444, 447), (452, 659), (661, 687), (880, 883), (886, 887), (891, 893), (895, 895),
    (902, 902), (904, 906), (908, 908), (910, 929), (931, 1013), (1015, 1153), (1162, 1327),
    (1329, 1366), (1376, 1416), (4256, 4293), (4295, 4295), (4301, 4301), (4304, 4346),
    (4349, 4351), (5024, 5109), (5112, 5117), (7296, 7304), (7312, 7354), (7357, 7359),
    (7424, 7467), (7531, 7543), (7545, 7578), (7680, 7957), (7960, 7965), (7968, 8005),
    (8008, 8013), (8016, 8023), (8025, 8025), (8027, 8027), (8029, 8029), (8031, 8061),
    (8064, 8116), (8118, 8124)
  ]),
  (64279, [
    (8126, 8126), (8130, 8132), (8134, 8140), (8144, 8147), (8150, 8155), (8160, 8172),
    (8178, 8180), (8182, 8188), (8450, 8450), (8455, 8455), (8458, 8467), (8469, 8469),
    (8473, 8477), (8484, 8484), (8486, 8486), (8488, 8488), (8490, 8493), (8495, 8500),
    (8505, 8505), (8508, 8511), (8517, 8521), (8526, 8526), (8544, 8575), (8579, 8580),
    (9398, 9449), (11264, 11387), (11390, 11492), (11499, 11502), (11506, 11507), (11520, 11557),
    (11559, 11559), (11565, 11565), (42560, 42605), (42624, 42651), (42786, 42863),
    (42865, 42887), (42891, 42894), (42896, 42954), (42960, 42961), (42963, 42963),
    (42965, 42969), (42997, 42998), (43002, 43002), (43824, 43866), (43872, 43880),
    (43888, 43967), (64256, 64262), (64275, 64279)
  ]),
  (122633, [
    (65313, 65338), (65345, 65370), (66560, 66639), (66736, 66771), (66776, 66811),
    (66928, 66938), (66940, 66954), (66956, 66962), (66964, 66965), (66967, 66977),
    (66979, 66993), (66995, 67001), (67003, 67004), (68736, 68786), (68800, 68850),
    (71840, 71903), (93760, 93823), (119808, 119892), (119894, 119964), (119966, 119967),
    (119970, 119970), (119973, 119974), (119977, 119980), (119982, 119993), (119995, 119995),
    (119997, 120003), (120005, 120069), (120071, 120074), (120077, 120084), (120086, 120092),
    (120094, 120121), (120123, 120126), (120128, 120132), (120134, 120134), (120138, 120144),
    (120146, 120485), (120488, 120512), (120514, 120538), (120540, 120570), (120572, 120596),
    (120598, 120628), (120630, 120654), (120656, 120686), (120688, 120712), (120714, 120744),
    (120746, 120770), (120772, 120779), (122624, 122633)
  ]),
  (127369, [
    (122635, 122654), (125184, 125251), (127280, 127305), (127312, 127337), (127344, 127369)
  ])
]

/-- The code points with the property `Case_Ignorable` (Unicode 14.0), laid
out as `casedRanges`. -/
def caseIgnorableRanges : List (Nat × List (Nat × Nat)) := [
  (2364, [
    (39, 39), (46, 46), (58, 58), (94, 94), (96, 96), (168, 168), (173, 173), (175, 175),
    (180, 180), (183, 184), (688, 879), (884, 885), (890, 890), (900, 901), (903, 903),
    (1155, 1161), (1369, 1369), (1375, 1375), (1425, 1469), (1471, 1471), (1473, 1474),
    (1476, 1477), (1479, 1479), (1524, 1524), (1536, 1541), (1552, 1562), (1564, 1564),
    (1600, 1600), (1611, 1631), (1648, 1648), (1750, 1757), (1759, 1768), (1770, 1773),
    (1807, 1807), (1809, 1809), (1840, 1866), (1958, 1968), (2027, 2037), (2042, 2042),
    (2045, 2045), (2070, 2093), (2137, 2139), (2184, 2184), (2192, 2193), (2200, 2207),
    (2249, 2306), (2362, 2362), (2364, 2364)
  ]),
  (3270, [
    (2369, 2376), (2381, 2381), (2385, 2391), (2402, 2403), (2417, 2417), (2433, 2433),
    (2492, 2492), (2497, 2500), (2509, 2509), (2530, 2531), (2558, 2558), (2561, 2562),
    (2620, 2620), (2625, 2626), (2631, 2632), (2635, 2637), (2641, 2641), (2672, 2673),
    (2677, 2677), (2689, 2690), (2748, 2748), (2753, 2757), (2759, 2760), (2765, 2765),
    (2786, 2787), (2810, 2815), (2817, 2817), (2876, 2876), (2879, 2879), (2881, 2884),
    (2893, 2893), (2901, 2902), (2914, 2915), (2946, 2946), (3008, 3008), (3021, 3021),
    (3072, 3072), (3076, 3076), (3132, 3132), (3134, 3136), (3142, 3144), (3146, 3149),
    (3157, 3158), (3170, 3171), (3201, 3201), (3260, 3260), (3263, 3263), (3270, 3270)
  ]),
  (6086, [
    (3276, 3277), (3298, 3299), (3328, 3329), (3387, 3388), (3393, 3396), (3405, 3405),
    (3426, 3427), (3457, 3457), (3530, 3530), (3538, 3540), (3542, 3542), (3633, 3633),
    (3636, 3642), (3654, 3662), (3761, 3761), (3764, 3772), (3782, 3782), (3784, 3789),
    (3864, 3865), (3893, 3893), (3895, 3895), (3897, 3897), (3953, 3966), (3968, 3972),
    (3974, 3975), (3981, 3991), (3993, 4028), (4038, 4038), (4141, 4144), (4146, 4151),
    (4153, 4154), (4157, 4158), (4184, 4185), (4190, 4192), (4209, 4212), (4226, 4226),
    (4229, 4230), (4237, 4237), (4253, 4253), (4348, 4348), (4957, 4959), (5906, 5908),
    (5938, 5939), (5970, 5971), (6002, 6003), (6068, 6069), (6071, 6077), (6086, 6086)
  ]),
  (7679, [
    (6089, 6099), (6103, 6103), (6109, 6109), (6155, 6159), (6211, 6211), (6277, 6278),
    (6313, 6313), (6432, 6434), (6439, 6440), (6450, 6450), (6457, 6459), (6679, 6680),
    (6683, 6683), (6742, 6742), (6744, 6750), (6752, 6752), (6754, 6754), (6757, 6764),
    (6771, 6780), (6783, 6783), (6823, 6823), (6832, 6862), (6912, 6915), (6964, 6964),
    (6966, 6970), (6972, 6972), (6978, 6978), (7019, 7027), (7040, 7041), (7074, 7077),
    (7080, 7081), (7083, 7085), (7142, 7142), (7144, 7145), (7149, 7149), (7151, 7153),
    (7212, 7219), (7222, 7223), (7288, 7293), (7376, 7378), (7380, 7392), (7394, 7400),
    (7405, 7405), (7412, 7412), (7416, 7417), (7468, 7530), (7544, 7544), (7579, 7679)
  ]),
  (43205, [
    (8125, 8125), (8127, 8129), (8141, 8143), (8157, 8159), (8173, 8175), (8189, 8190),
    (8203, 8207), (8216, 8217), (8228, 8228), (8231, 8231), (8234, 8238), (8288, 8292),
    (8294, 8303), (8305, 8305), (8319, 8319), (8336, 8348), (8400, 8432), (11388, 11389),
    (11503, 11505), (11631, 11631), (11647, 11647), (11744, 11775), (11823, 11823),
    (12293, 12293), (12330, 12333), (12337, 12341), (12347, 12347), (12441, 12446),
    (12540, 12542), (40981, 40981), (42232, 42237), (42508, 42508), (42607, 42610),
    (42612, 42621), (42623, 42623), (42652, 42655), (42736, 42737), (42752, 42785),
    (42864, 42864), (42888, 42890), (42994, 42996), (43000, 43001), (43010, 43010),
    (43014, 43014), (43019, 43019), (43045, 43046), (43052, 43052), (43204, 43205)
  ]),
  (65531, [
    (43232, 43249), (43263, 43263), (43302, 43309), (43335, 43345), (43392, 43394),
    (43443, 43443), (43446, 43449), (43452, 43453), (43471, 43471), (43493, 43494),
    (43561, 43566), (43569, 43570), (43573, 43574), (43587, 43587), (43596, 43596),
    (43632, 43632), (43644, 43644), (43696, 43696), (43698, 43700), (43703, 43704),
    (43710, 43711), (43713, 43713), (43741, 43741), (43756, 43757), (43763, 43764),
    (43766, 43766), (43867, 43871), (43881, 43883), (44005, 44005), (44008, 44008),
    (44013, 44013), (64286, 64286), (64434, 64450), (65024, 65039), (65043, 65043),
    (65056, 65071), (65106, 65106), (65109, 65109), (65279, 65279), (65287, 65287),
    (65294, 65294), (65306, 65306), (65342, 65342), (65344, 65344), (65392, 65392),
    (65438, 65439), (65507, 65507), (65529, 65531)
  ]),
  (70726, [
    (66045, 66045), (66272, 66272), (66422, 66426), (67456, 67461), (67463, 67504),
    (67506, 67514), (68097, 68099), (68101, 68102), (68108, 68111), (68152, 68154),
    (68159, 68159), (68325, 68326), (68900, 68903), (69291, 69292), (69446, 69456),
    (69506, 69509), (69633, 69633), (69688, 69702), (69744, 69744), (69747, 69748),
    (69759, 69761), (69811, 69814), (69817, 69818), (69821, 69821), (69826, 69826),
    (69837, 69837), (69888, 69890), (69927, 69931), (69933, 69940), (70003, 70003),
    (70016, 70017), (70070, 70078), (70089, 70092), (70095, 70095), (70191, 70193),
    (70196, 70196), (70198, 70199), (70206, 70206), (70367, 70367), (70371, 70378),
    (70400, 70401), (70459, 70460), (70464, 70464), (70502, 70508), (70512, 70516),
    (70712, 70719), (70722, 70724), (70726, 70726)
  ]),
  (73105, [
    (70750, 70750), (70835, 70840), (70842, 70842), (70847, 70848), (70850, 70851),
    (71090, 71093), (71100, 71101), (71103, 71104), (71132, 71133), (71219, 71226),
    (71229, 71229), (71231, 71232), (71339, 71339), (71341, 71341), (71344, 71349),
    (71351, 71351), (71453, 71455), (71458, 71461), (71463, 71467), (71727, 71735),
    (71737, 71738), (71995, 71996), (71998, 71998), (72003, 72003), (72148, 72151),
    (72154, 72155), (72160, 72160), (72193, 72202), (72243, 72248), (72251, 72254),
    (72263, 72263), (72273, 72278), (72281, 72283), (72330, 72342), (72344, 72345),
    (72752, 72758), (72760, 72765), (72767, 72767), (72850, 72871), (72874, 72880),
    (72882, 72883), (72885, 72886), (73009, 73014), (73018, 73018), (73020, 73021),
    (73023, 73029), (73031, 73031), (73104, 73105)
  ]),
  (917999, [
    (73109, 73109), (73111, 73111), (73459, 73460), (78896, 78904), (92912, 92916),
    (92976, 92982), (92992, 92995), (94031, 94031), (94095, 94111), (94176, 94177),
    (94179, 94180), (110576, 110579), (110581, 110587), (110589, 110590), (113821, 113822),
    (113824, 113827), (118528, 118573), (118576, 118598), (119143, 119145), (119155, 119170),
    (119173, 119179), (119210, 119213), (119362, 119364), (121344, 121398), (121403, 121452),
    (121461, 121461), (121476, 121476), (121499, 121503), (121505, 121519), (122880, 122886),
    (122888, 122904), (122907, 122913), (122915, 122916), (122918, 122922), (123184, 123197),
    (123566, 123566), (123628, 123631), (125136, 125142), (125252, 125259), (127995, 127999),
    (917505, 917505), (917536, 917631), (917760, 917999)
  ])
]

/-- The entry of a code point in a block of a mapping table, if it has one. -/
def lookupBlock : List (Nat × List Nat) → Nat → Option (List Nat)
  | [], _ => none
  | (key, value) :: rest, c =>
    if c < key then none else if c = key then some value else lookupBlock rest c

/-- The entry of a code point in a mapping table, if it has one. -/
def lookupTable : List (Nat × List (Nat × List Nat)) → Nat → Option (List Nat)
  | [], _ => none
  | (last, block) :: rest, c =>
    if c ≤ last then lookupBlock block c else lookupTable rest c

/-- Whether a code point lies in one of the ranges of a block. -/
def inBlock : List (Nat × Nat) → Nat → Bool
  | [], _ => false
  | (first, last) :: rest, c =>
    if c < first then false else if c ≤ last then true else inBlock rest c

/-- Whether a code point lies in one of the ranges of a table. -/
def inRanges : List (Nat × List (Nat × Nat)) → Nat → Bool
  | [], _ => false
  | (last, block) :: rest, c =>
    if c ≤ last then inBlock block c else inRanges rest c

/-- The characters a character becomes in upper case. -/
def toUpperChar (c : Char) : List Char :=
  match lookupTable upperCaseTable c.toNat with
  | some codes => codes.map Char.ofNat
  | none => [c]

/-- The characters a character other than capital sigma becomes in lower
case. -/
def toLowerChar (c : Char) : List Char :=
  match lookupTable lowerCaseTable c.toNat with
  | some codes => codes.map Char.ofNat
  | none => [c]

/-- Whether, skipping case-ignorable characters, the first character of the
list is cased. -/
def casedNext : List Char → Bool
  | [] => false
  | c :: rest =>
    if inRanges caseIgnorableRanges c.toNat then casedNext rest
    else inRanges casedRanges c.toNat

/-- The condition `Final_Sigma` of `SpecialCasing.txt`: the characters before
(nearest first) end in a cased letter followed only by case-ignorable
characters, and the characters after do not start with case-ignorable
characters followed by a cased letter. -/
def isFinalSigma (before after : List Char) : Bool :=
  casedNext before && !casedNext after

/-- Lower-casing of the characters `rest` that follow the characters `before`
(nearest first): capital sigma (U+03A3) becomes final sigma (U+03C2) under
`Final_Sigma` and small sigma (U+03C3) otherwise. -/
def lowerChars : List Char → List Char → List Char
  | _, [] => []
  | before, c :: rest =>
    (if c.toNat = 931 then
      (if isFinalSigma before rest then [Char.ofNat 962] else [Char.ofNat 963])
    else toLowerChar c) ++ lowerChars (c :: before) rest

/-- Upper-casing of a list of characters, one by one. -/
def upperChars : List Char → List Char
  | [] => []
  | c :: rest => toUpperChar c ++ upperChars rest

/-- `String.prototype.toUpperCase`: the Unicode default upper-case
conversion. -/
def toUpperCase (s : String) : String := ⟨upperChars s.data⟩

/-- `String.prototype.toLowerCase`: the Unicode default lower-case
conversion. -/
def toLowerCase (s : String) : String := ⟨lowerChars [] s.data⟩

/-- Whether a string consists of ASCII characters only. -/
def isAscii (s : String) : Bool := s.data.all fun c => decide (c.toNat < 128)

/-- The string that consists of U+212A KELVIN SIGN. -/
def kelvinSign : String := ⟨[Char.ofNat 8490]⟩

/-! ## Collaborators and the log -/

/-- What can be observed from outside the components: a call of a function of
`services/api.js` together with the way it settled, or a `console.error`. -/
inductive Event where
  | getStarredStocks (result : Except JsError (List StarredEntry))
  | starStock (symbol : String) (result : Except JsError Payload)
  | unstarStock (symbol : String) (result : Except JsError Payload)
  | refreshStock (symbol : String) (result : Except JsError Payload)
  | consoleError (label : String) (error : JsError)
deriving DecidableEq

/-- The functions imported from `services/api.js`. Each takes the log of what
happened before the call, so its outcome may differ from call to call. -/
structure Remote where
  getStarredStocks : List Event → Except JsError (List StarredEntry)
  starStock : String → List Event → Except JsError Payload
  unstarStock : String → List Event → Except JsError Payload
  refreshStock : String → List Event → Except JsError Payload

/-! ## StockContext.jsx -/

/-- The state of `StockProvider` (`starredStocks`, `loading`) together with
the log. -/
structure World where
  starredStocks : List StarredEntry
  loading : Bool
  log : List Event
deriving DecidableEq

/-- The state when `StockProvider` is first rendered: `useState([])`,
`useState(false)`, nothing has happened yet. -/
def World.initial : World := ⟨[], false, []⟩

/-- Appends events to the log. -/
def World.record (w : World) (es : List Event) : World :=
  { w with log := w.log ++ es }

/-- The `loadStarredStocks` of `StockProvider`:
`try { setLoading(true); stocks = await getStarredStocks(); setStarredStocks(stocks) }
 catch (error) { console.error(..) } finally { setLoading(false) }`. -/
def loadStarredStocks (r : Remote) (w : World) : Except JsError Unit × World :=
  let w1 := { w with loading := true }
  match r.getStarredStocks w1.log with
  | .ok stocks =>
    let w2 := w1.record [.getStarredStocks (.ok stocks)]
    let w3 := { w2 with starredStocks := stocks }
    (.ok (), { w3 with loading := false })
  | .error error =>
    let w2 := w1.record [.getStarredStocks (.error error)]
    let w3 := w2.record [.consoleError "Failed to load starred stocks:" error]
    (.ok (), { w3 with loading := false })

/-- The `addStarredStock` of `StockProvider`:
`try { await starStock(symbol); await loadStarredStocks() }
 catch (error) { console.error(..); throw error }`. -/
def addStarredStock (r : Remote) (symbol : String) (w : World) :
    Except JsError Unit × World :=
  match r.starStock symbol w.log with
  | .ok data =>
    let w1 := w.record [.starStock symbol (.ok data)]
    match loadStarredStocks r w1 with
    | (.ok (), w2) => (.ok (), w2)
    | (.error error, w2) =>
      (.error error, w2.record [.consoleError "Failed to star stock:" error])
  | .error error =>
    let w1 := w.record [.starStock symbol (.error error)]
    (.error error, w1.record [.consoleError "Failed to star stock:" error])

/-- The `removeStarredStock` of `StockProvider`:
`try { await unstarStock(symbol); await loadStarredStocks() }
 catch (error) { console.error(..); throw error }`. -/
def removeStarredStock (r : Remote) (symbol : String) (w : World) :
    Except JsError Unit × World :=
  match r.unstarStock symbol w.log with
  | .ok data =>
    let w1 := w.record [.unstarStock symbol (.ok data)]
    match loadStarredStocks r w1 with
    | (.ok (), w2) => (.ok (), w2)
    | (.error error, w2) =>
      (.error error, w2.record [.consoleError "Failed to unstar stock:" error])
  | .error error =>
    let w1 := w.record [.unstarStock symbol (.error error)]
    (.error error, w1.record [.consoleError "Failed to unstar stock:" error])

/-- The `isStarred` of `StockProvider`:
`starredStocks.some(stock => stock.symbol === symbol.toUpperCase())`.
The argument is evaluated once per element, and only if there is an element
to test; reading `toUpperCase` from `undefined` or `null` throws. -/
def isStarred (starredStocks : List StarredEntry) (symbol : JsValue) :
    Except JsError Bool :=
  match starredStocks with
  | [] => .ok false
  | _ :: _ =>
    match symbol with
    | .str s => .ok (starredStocks.any fun stock => stock.symbol == toUpperCase s)
    | .undefined => .error (propertyTypeError "undefined" "toUpperCase")
    | .null => .error (propertyTypeError "null" "toUpperCase")

/-- The function under the name `refreshStarredStocks` in the context value:
`refreshStarredStocks: loadStarredStocks`. -/
def refreshStarredStocks (r : Remote) (w : World) : Except JsError Unit × World :=
  loadStarredStocks r w

/-! ## Dashboard.jsx -/

/-- The state cells of `Dashboard`: `refreshing`, `autoRefresh` and
`refreshInterval` (in minutes). -/
structure Dashboard where
  refreshing : Bool
  autoRefresh : Bool
  refreshInterval : Nat
deriving DecidableEq

/-- The first render of `Dashboard`: `useState(false)`, `useState(true)`,
`useState(5)`. -/
def Dashboard.initial : Dashboard := ⟨false, true, 5⟩

/-- One turn of the loop of `refreshAllStocks`:
`try { await refreshStock(stock.symbol) } catch (err) { console.error(..) }`. -/
def refreshOne (r : Remote) (stock : StarredEntry) (w : World) : World :=
  match r.refreshStock stock.symbol w.log with
  | .ok data => w.record [.refreshStock stock.symbol (.ok data)]
  | .error err =>
    let w1 := w.record [.refreshStock stock.symbol (.error err)]
    w1.record [.consoleError ("Failed to refresh " ++ stock.symbol ++ ":") err]

/-- The loop `for (const stock of starredStocks) { .. }` of
`refreshAllStocks`. -/
def refreshEach (r : Remote) : List StarredEntry → World → World
  | [], w => w
  | stock :: rest, w => refreshEach r rest (refreshOne r stock w)

/-- The `refreshAllStocks` of `Dashboard`, run from its call to its end.
`starredStocks` is the array the function closes over, the value of the store
in the render that created the function:
`setRefreshing(true); try { for (..) {..}; await refreshStarredStocks() }
 finally { setRefreshing(false) }`. -/
def refreshAllStocks (r : Remote) (starredStocks : List StarredEntry)
    (d : Dashboard) (w : World) : Except JsError Unit × Dashboard × World :=
  let d1 := { d with refreshing := true }
  let w1 := refreshEach r starredStocks w
  match refreshStarredStocks r w1 with
  | (.ok (), w2) => (.ok (), { d1 with refreshing := false }, w2)
  | (.error error, w2) => (.error error, { d1 with refreshing := false }, w2)

/-! ### The scheduler, one suspension point at a time -/

/-- An interval created by `setInterval` and not cleared yet: the handle
`setInterval` returned, its period in milliseconds and the `starredStocks`
array closed over by the `refreshAllStocks` it calls. -/
structure Timer where
  handle : Nat
  period : Nat
  starredStocks : List StarredEntry
deriving DecidableEq

/-- An invocation of `refreshAllStocks` that has not finished: the entries its
loop has not visited yet. With no entry left, the next thing it does is
`await refreshStarredStocks()` and the `finally` block. -/
structure Cycle where
  pending : List StarredEntry
deriving DecidableEq

/-- The dependency array of the auto-refresh effect:
`[autoRefresh, refreshInterval, starredStocks.length]`. -/
structure Deps where
  autoRefresh : Bool
  refreshInterval : Nat
  length : Nat
deriving DecidableEq

/-- The mounted `Dashboard` inside its `StockProvider`: the state of both
components, the intervals that are set and not cleared, the handle the next
`setInterval` will return, the dependencies the effect last ran with, the
handle its cleanup `() => clearInterval(interval)` will clear (if it returned
one), and the invocations of `refreshAllStocks` in flight. -/
structure Scheduler where
  world : World
  dashboard : Dashboard
  timers : List Timer
  nextHandle : Nat
  deps : Option Deps
  cleanup : Option Nat
  cycles : List Cycle
deriving DecidableEq

/-- What drives the mounted dashboard. -/
inductive Input where
  /-- The callback of the interval with this handle is due. -/
  | timerFires (handle : Nat)
  /-- A click on the Refresh All button. -/
  | clickRefreshAll
  /-- The promise awaited by the `i`-th invocation in flight settles. -/
  | resume (i : Nat)
  /-- The Auto-refresh checkbox changes. -/
  | setAutoRefresh (checked : Bool)
  /-- The interval select changes. -/
  | setRefreshInterval (minutes : Nat)
  /-- Another component calls `addStarredStock(symbol)`. -/
  | addStarredStock (symbol : String)
  /-- Another component calls `removeStarredStock(symbol)`. -/
  | removeStarredStock (symbol : String)
deriving DecidableEq

/-- The dependencies of the effect in the current render. -/
def Scheduler.currentDeps (s : Scheduler) : Deps :=
  ⟨s.dashboard.autoRefresh, s.dashboard.refreshInterval, s.world.starredStocks.length⟩

/-- The cleanup of the previous run of the effect, if it returned one:
`clearInterval(interval)`. -/
def Scheduler.runCleanup (s : Scheduler) : Scheduler :=
  match s.cleanup with
  | some handle => { s with timers := s.timers.filter fun t => t.handle != handle }
  | none => s

/-- The auto-refresh `useEffect` after a render: when a dependency changed (or
on mount) the previous cleanup runs (`clearInterval`) and the body runs again:
`if (autoRefresh && starredStocks.length > 0) { setInterval(.., refreshInterval * 60 * 1000) }`. -/
def Scheduler.render (s : Scheduler) : Scheduler :=
  if s.deps = some s.currentDeps then s
  else
    let s1 := s.runCleanup
    if s1.dashboard.autoRefresh && decide (s1.world.starredStocks.length > 0) then
      { s1 with deps := some s1.currentDeps,
                timers := s1.timers ++
                  [⟨s1.nextHandle, s1.dashboard.refreshInterval * 60 * 1000,
                    s1.world.starredStocks⟩],
                nextHandle := s1.nextHandle + 1,
                cleanup := some s1.nextHandle }
    else
      { s1 with deps := some s1.currentDeps, cleanup := none }

/-- A call of `refreshAllStocks` up to its first `await`:
`setRefreshing(true)` and the loop is entered. -/
def Scheduler.startCycle (starredStocks : List StarredEntry) (s : Scheduler) : Scheduler :=
  { s with dashboard := { s.dashboard with refreshing := true },
           cycles := s.cycles ++ [⟨starredStocks⟩] }

/-- The reaction to one input, before the render that follows it. The timer
callback is `() => { refreshAllStocks() }`; the button is
`onClick={refreshAllStocks} disabled={refreshing}`. -/
def Scheduler.react (r : Remote) (s : Scheduler) : Input → Scheduler
  | .timerFires handle =>
    match s.timers.find? fun t => t.handle == handle with
    | some t => s.startCycle t.starredStocks
    | none => s
  | .clickRefreshAll =>
    if s.dashboard.refreshing then s else s.startCycle s.world.starredStocks
  | .resume i =>
    match s.cycles.get? i with
    | none => s
    | some ⟨stock :: rest⟩ =>
      { s with world := refreshOne r stock s.world, cycles := s.cycles.set i ⟨rest⟩ }
    | some ⟨[]⟩ =>
      { s with world := (refreshStarredStocks r s.world).2,
               dashboard := { s.dashboard with refreshing := false },
               cycles := s.cycles.eraseIdx i }
  | .setAutoRefresh checked =>
    { s with dashboard := { s.dashboard with autoRefresh := checked } }
  | .setRefreshInterval minutes =>
    { s with dashboard := { s.dashboard with refreshInterval := minutes } }
  | .addStarredStock symbol => { s with world := (addStarredStock r symbol s.world).2 }
  | .removeStarredStock symbol => { s with world := (removeStarredStock r symbol s.world).2 }

/-- One input followed by the render it causes. -/
def Scheduler.step (r : Remote) (s : Scheduler) (i : Input) : Scheduler :=
  (s.react r i).render

/-- A sequence of inputs, in order. -/
def Scheduler.run (r : Remote) (s : Scheduler) (inputs : List Input) : Scheduler :=
  inputs.foldl (Scheduler.step r) s

/-- The dashboard right after it is mounted in a provider whose state is
`w`: first render, then the effect runs for the first time. -/
def Scheduler.mount (w : World) : Scheduler :=
  Scheduler.render ⟨w, Dashboard.initial, [], 0, none, none, []⟩

/-! ## Observations on the log -/

/-- Whether an event is a call of a function of `services/api.js`. -/
def Event.isRemoteCall : Event → Bool
  | .consoleError _ _ => false
  | _ => true

/-- Whether an event is a call of `getStarredStocks`. -/
def Event.isGetStarredStocks : Event → Bool
  | .getStarredStocks _ => true
  | _ => false

/-- Whether an event is a call of `refreshStock`. -/
def Event.isRefreshStock : Event → Bool
  | .refreshStock _ _ => true
  | _ => false

/-- The collaborator calls of a log, in order. -/
def remoteCalls (log : List Event) : List Event := log.filter Event.isRemoteCall

/-- The arguments of the `refreshStock` calls of a log, in order. -/
def refreshedSymbols (log : List Event) : List String :=
  log.filterMap fun
    | .refreshStock symbol _ => some symbol
    | _ => none

/-- The value of the most recent `getStarredStocks` call of a log that
resolved, if there is one. -/
def lastLoaded (log : List Event) : Option (List StarredEntry) :=
  log.foldl (fun acc ev =>
    match ev with
    | .getStarredStocks (.ok stocks) => some stocks
    | _ => acc) none

/-- The visible list agrees with the log: it is the last list loaded, or `init`
when nothing was loaded. -/
def Synced (init : List StarredEntry) (w : World) : Prop :=
  w.starredStocks = (lastLoaded w.log).getD init

/-- The timers agree with the effect: the list of pending intervals is empty
and the effect has no cleanup, or it is the one interval the cleanup will
clear; and when the effect last ran with the dependencies `d`, there is a
pending interval exactly when `d` has auto-refresh on and a non-empty list,
its period being the interval of `d` in milliseconds. -/
def TimerInv (s : Scheduler) : Prop :=
  ((s.timers = [] ∧ s.cleanup = none) ∨ ∃ t, s.timers = [t] ∧ s.cleanup = some t.handle) ∧
    ∀ d, s.deps = some d →
      if d.autoRefresh = true ∧ 0 < d.length then
        ∃ t, s.timers = [t] ∧ t.period = d.refreshInterval * 60 * 1000
      else s.timers = []

/-- The symbols of a starred list are pairwise different. -/
def UniqueSymbols (stocks : List StarredEntry) : Prop :=
  (stocks.map fun stock => stock.symbol).Nodup

/-! ## Sequences of store operations -/

/-- An operation on the store. -/
inductive Op where
  | load
  | star (symbol : String)
  | unstar (symbol : String)
deriving DecidableEq

/-- The state after one operation has run to its end. -/
def Op.apply (r : Remote) (w : World) : Op → World
  | .load => (loadStarredStocks r w).2
  | .star symbol => (addStarredStock r symbol w).2
  | .unstar symbol => (removeStarredStock r symbol w).2

/-- The state after a sequence of operations, each run to its end before the
next one starts. -/
def runOps (r : Remote) (w : World) (ops : List Op) : World :=
  ops.foldl (Op.apply r) w

/-! ## Remotes used at concrete inputs -/

/-- A server on which every call fails with the wrapper's default message. -/
def Remote.down : Remote where
  getStarredStocks _ := .error ⟨"Error", "Failed to fetch starred stocks"⟩
  starStock _ _ := .error ⟨"Error", "Failed to star stock"⟩
  unstarStock _ _ := .error ⟨"Error", "Failed to unstar stock"⟩
  refreshStock _ _ := .error ⟨"Error", "Failed to refresh stock data"⟩

/-- A server that answers every call and whose starred list is `stocks`. -/
def Remote.serving (stocks : List StarredEntry) : Remote where
  getStarredStocks _ := .ok stocks
  starStock _ _ := .ok "starred"
  unstarStock _ _ := .ok "unstarred"
  refreshStock symbol _ := .ok symbol

/-- A server like `Remote.serving stocks`, except that `refreshStock` fails
for the symbol `bad`. -/
def Remote.failingFor (bad : String) (stocks : List StarredEntry) : Remote where
  getStarredStocks _ := .ok stocks
  starStock _ _ := .ok "starred"
  unstarStock _ _ := .ok "unstarred"
  refreshStock symbol _ :=
    if symbol = bad then .error ⟨"Error", "Failed to refresh stock data"⟩ else .ok symbol

/-- A server on which `starStock` and `unstarStock` succeed and every other
call fails. -/
def Remote.starOnly : Remote where
  getStarredStocks _ := .error ⟨"Error", "Failed to fetch starred stocks"⟩
  starStock _ _ := .ok "starred"
  unstarStock _ _ := .ok "unstarred"
  refreshStock _ _ := .error ⟨"Error", "Failed to refresh stock data"⟩

/-- An entry with a symbol and no other field. -/
def entry (symbol : String) : StarredEntry := ⟨symbol, []⟩

/-! ## services/api.js -/

/-- A request made through the axios instance `api`: the method, the URL
relative to the base URL and, for `post`, the `symbol` of the body
`{ symbol }`. -/
structure Request where
  method : String
  url : String
  symbol : Option String
deriving DecidableEq

/-- The `TypeError` raised when an object cannot be converted to a primitive
value, with the message of V8. -/
def primitiveTypeError : JsError :=
  ⟨"TypeError", "Cannot convert object to primitive value"⟩

/-- The value of the field `error` of a response body: any JSON value, given
by what `||` and `new Error(..)` read from it. -/
inductive FieldValue where
  | null
  | bool (b : Bool)
  /-- A number: whether it is zero, and the text into which it is converted
  (`Number.prototype.toString`). -/
  | number (isZero : Bool) (text : String)
  | string (s : String)
  /-- An array: the outcome of its conversion to a string, which is its
  elements converted and joined by commas (the empty string for `[]`), or the
  error thrown by the conversion of an element. -/
  | array (joined : Except JsError String)
  /-- An object: whether it has a field of its own named `toString`, which
  hides `Object.prototype.toString` and, coming from JSON, is not callable. -/
  | object (ownToString : Bool)
deriving DecidableEq

/-- `ToBoolean`: `null`, `false`, zero and the empty string are falsy, every
array and object is truthy. -/
def FieldValue.truthy : FieldValue → Bool
  | .null => false
  | .bool b => b
  | .number isZero _ => !isZero
  | .string s => s != ""
  | .array _ => true
  | .object _ => true

/-- `ToString`, as `new Error(message)` applies it to its argument. -/
def FieldValue.toJsString : FieldValue → Except JsError String
  | .null => .ok "null"
  | .bool true => .ok "true"
  | .bool false => .ok "false"
  | .number _ text => .ok text
  | .string s => .ok s
  | .array joined => joined
  | .object true => .error primitiveTypeError
  | .object false => .ok "[object Object]"

/-- The body of a failure response when it is an object: `error` is the value
of its field `error`, absent when the body has no such field. -/
structure ErrorBody where
  error : Option FieldValue
deriving DecidableEq

/-- The object under `error.response`, present when the server answered with
a failure status; `data` is absent when the response has no body or a body
that is not an object (then `data?.error` is `undefined`). -/
structure ErrorResponse where
  data : Option ErrorBody
deriving DecidableEq

/-- The way a call of `api.get`, `api.post` or `api.delete` settles: resolved
with a response whose body is `data`, or rejected with an error whose
`response` is absent when no answer arrived. -/
inductive Http (α : Type) where
  | resolved (data : α)
  | rejected (response : Option ErrorResponse)

/-- The axios instance `api`, as the outcome of each request. -/
abbrev Axios (α : Type) := Request → Http α

/-- The expression `error.response?.data?.error`; `none` stands for
`undefined`. -/
def responseError (response : Option ErrorResponse) : Option FieldValue :=
  match response with
  | none => none
  | some res =>
    match res.data with
    | none => none
    | some body => body.error

/-- The expression `value || fallback`, `fallback` being a string literal. -/
def orFallback (value : Option FieldValue) (fallback : String) : FieldValue :=
  match value with
  | none => .string fallback
  | some v => if v.truthy then v else .string fallback

/-- The body shared by the five wrappers:
`try { const response = await ..; return response.data }
 catch (error) { throw new Error(error.response?.data?.error || fallback) }`.
`new Error(message)` converts its argument to a string; when that conversion
throws, its error leaves the `catch` block instead of the new `Error`. -/
def settle {α : Type} (fallback : String) : Http α → Except JsError α
  | .resolved data => .ok data
  | .rejected response =>
    match (orFallback (responseError response) fallback).toJsString with
    | .ok message => .error ⟨"Error", message⟩
    | .error thrown => .error thrown

/-- The `analyzeStock` of `api.js`: `api.post('/analyze', { symbol })`. -/
def analyzeStock {α : Type} (api : Axios α) (symbol : String) : Except JsError α :=
  settle "Failed to analyze stock" (api ⟨"POST", "/analyze", some symbol⟩)

/-- The `getStarredStocks` of `api.js`: `api.get('/starred')`. -/
def getStarredStocks {α : Type} (api : Axios α) : Except JsError α :=
  settle "Failed to fetch starred stocks" (api ⟨"GET", "/starred", none⟩)

/-- The `starStock` of `api.js`: `api.post('/star', { symbol })`. -/
def starStock {α : Type} (api : Axios α) (symbol : String) : Except JsError α :=
  settle "Failed to star stock" (api ⟨"POST", "/star", some symbol⟩)

/-- The `unstarStock` of `api.js`: `api.delete('/star/' + symbol)`. -/
def unstarStock {α : Type} (api : Axios α) (symbol : String) : Except JsError α :=
  settle "Failed to unstar stock" (api ⟨"DELETE", "/star/" ++ symbol, none⟩)

/-- The `refreshStock` of `api.js`: `api.get('/refresh/' + symbol)`. -/
def refreshStock {α : Type} (api : Axios α) (symbol : String) : Except JsError α :=
  settle "Failed to refresh stock data" (api ⟨"GET", "/refresh/" ++ symbol, none⟩)

/-- The message of the error of a wrapper, by the kind of the `error` field
of the response body: the field itself when it is a non-empty string; the
default message when it is absent, `null`, `false`, zero or the empty string;
and for every other value the string into which the value is converted, unless
that conversion throws. -/
def contractMessage (defaultMessage : String) : Option FieldValue → Except JsError String
  | none => .ok defaultMessage
  | some .null => .ok defaultMessage
  | some (.bool false) => .ok defaultMessage
  | some (.bool true) => .ok "true"
  | some (.number true _) => .ok defaultMessage
  | some (.number false text) => .ok text
  | some (.string message) => if message = "" then .ok defaultMessage else .ok message
  | some (.array (.ok joined)) => .ok joined
  | some (.array (.error thrown)) => .error thrown
  | some (.object false) => .ok "[object Object]"
  | some (.object true) => .error primitiveTypeError

/-- The contract of a wrapper: the response data unchanged on success; on any
failure an `Error` whose message is `contractMessage` of the `error` field of
the response body (absent when there is no response, no body or no such
field), or the `TypeError` of the conversion when that throws. -/
def wrapperContract {α : Type} (defaultMessage : String) : Http α → Except JsError α
  | .resolved data => .ok data
  | .rejected none => .error ⟨"Error", defaultMessage⟩
  | .rejected (some ⟨none⟩) => .error ⟨"Error", defaultMessage⟩
  | .rejected (some ⟨some ⟨field⟩⟩) =>
    match contractMessage defaultMessage field with
    | .ok message => .error ⟨"Error", message⟩
    | .error thrown => .error thrown

/-- The expression `message || fallback` for a string `message`. -/
def orElse (message fallback : String) : String :=
  if message = "" then fallback else message

/-! ## StockCard.jsx and StockAnalysis.jsx: the per-symbol load -/

/-- The state cells shared by `StockCard` (`data`, `loading`, `error`) and
`StockAnalysis` (`analysis`, `loading`, `error`), with the `symbol` prop.
`none` stands for `null`. -/
structure Entry where
  symbol : String
  data : Option Payload
  loading : Bool
  error : Option String
deriving DecidableEq

/-- The first render of either component: `useState(null)`, `useState(true)`,
`useState(null)`. -/
def Entry.initial (symbol : String) : Entry := ⟨symbol, none, true, none⟩

/-- The `loadData` of `StockCard` up to its `await`: `setLoading(true)` and
`analyzeStock(symbol)` is called; `calls` lists the arguments of the
`analyzeStock` calls made so far. -/
def StockCard.loadDataStart (e : Entry) (calls : List String) : Entry × List String :=
  ({ e with loading := true }, calls ++ [e.symbol])

/-- The `loadData` of `StockCard` once `analyzeStock` has settled:
`setData(analysis); setError(null)`, or `catch (err) { setError(err.message) }`,
then `finally { setLoading(false) }`. -/
def StockCard.loadDataSettle (result : Except JsError Payload) (e : Entry) : Entry :=
  match result with
  | .ok analysis =>
    let e1 := { e with data := some analysis }
    let e2 := { e1 with error := none }
    { e2 with loading := false }
  | .error err =>
    let e1 := { e with error := some err.message }
    { e1 with loading := false }

/-- The `loadData` of `StockCard`, from its call to its end. -/
def StockCard.loadData (api : Axios Payload) (e : Entry) : Entry :=
  StockCard.loadDataSettle (analyzeStock api e.symbol) (StockCard.loadDataStart e []).1

/-- The `loadAnalysis` of `StockAnalysis` up to its `await`:
`setLoading(true); setError(null)` and `analyzeStock(symbol)` is called. -/
def StockAnalysis.loadAnalysisStart (e : Entry) (calls : List String) :
    Entry × List String :=
  let e1 := { e with loading := true }
  ({ e1 with error := none }, calls ++ [e.symbol])

/-- The `loadAnalysis` of `StockAnalysis` once `analyzeStock` has settled:
`setAnalysis(data)`, or
`catch (err) { setError(err.message || 'Failed to load analysis') }`, then
`finally { setLoading(false) }`. -/
def StockAnalysis.loadAnalysisSettle (result : Except JsError Payload) (e : Entry) : Entry :=
  match result with
  | .ok data =>
    let e1 := { e with data := some data }
    { e1 with loading := false }
  | .error err =>
    let e1 := { e with error := some (orElse err.message "Failed to load analysis") }
    { e1 with loading := false }

/-- The `loadAnalysis` of `StockAnalysis`, from its call to its end. -/
def StockAnalysis.loadAnalysis (api : Axios Payload) (e : Entry) : Entry :=
  StockAnalysis.loadAnalysisSettle (analyzeStock api e.symbol)
    (StockAnalysis.loadAnalysisStart e []).1

/-- The two components that load the analysis of a symbol on their own. -/
inductive Component where
  | stockCard
  | stockAnalysis
deriving DecidableEq

/-- A component instance on the page: which component it is and its state. -/
structure Mounted where
  component : Component
  entry : Entry
deriving DecidableEq

/-- The load function of a component up to its `await`. -/
def Component.loadStart : Component → Entry → List String → Entry × List String
  | .stockCard => StockCard.loadDataStart
  | .stockAnalysis => StockAnalysis.loadAnalysisStart

/-- The load function of a component once `analyzeStock` has settled. -/
def Component.loadSettle : Component → Except JsError Payload → Entry → Entry
  | .stockCard => StockCard.loadDataSettle
  | .stockAnalysis => StockAnalysis.loadAnalysisSettle

/-- The component instances created so far, the arguments of the
`analyzeStock` calls made so far, and for each `analyzeStock` promise that has
not settled yet the index of the instance that awaits it. -/
structure Page where
  mounted : List Mounted
  calls : List String
  inFlight : List Nat
deriving DecidableEq

/-- A page on which nothing was rendered yet. -/
def Page.empty : Page := ⟨[], [], []⟩

/-- The load function of the `i`-th instance is called (by its effect
`useEffect(() => { load() }, [symbol])` or by the Try Again button) and runs
up to its `await`. -/
def Page.load (p : Page) (i : Nat) : Page :=
  match p.mounted.get? i with
  | none => p
  | some m =>
    let started := m.component.loadStart m.entry p.calls
    { mounted := p.mounted.set i ⟨m.component, started.1⟩,
      calls := started.2,
      inFlight := p.inFlight ++ [i] }

/-- A new instance of a component is mounted for `symbol`; its effect calls
its load function. -/
def Page.mount (p : Page) (component : Component) (symbol : String) : Page :=
  Page.load { p with mounted := p.mounted ++ [⟨component, Entry.initial symbol⟩] }
    p.mounted.length

/-- The `k`-th pending `analyzeStock` promise settles and the load function
that awaits it runs to its end. -/
def Page.settleAt (p : Page) (k : Nat) (result : Except JsError Payload) : Page :=
  match p.inFlight.get? k with
  | none => p
  | some i =>
    match p.mounted.get? i with
    | none => { p with inFlight := p.inFlight.eraseIdx k }
    | some m =>
      { p with mounted := p.mounted.set i ⟨m.component, m.component.loadSettle result m.entry⟩,
               inFlight := p.inFlight.eraseIdx k }

/-! ## SearchBar.jsx -/

/-- The code points of the ECMAScript `WhiteSpace` and `LineTerminator`
productions, which `String.prototype.trim` removes. -/
def isWhiteSpace (c : Char) : Bool :=
  [9, 10, 11, 12, 13, 32, 160, 5760, 8232, 8233, 8239, 8287, 12288, 65279].contains c.toNat ||
    (decide (8192 ≤ c.toNat) && decide (c.toNat ≤ 8202))

/-- `String.prototype.trim`. -/
def trim (s : String) : String :=
  ⟨((s.data.dropWhile isWhiteSpace).reverse.dropWhile isWhiteSpace).reverse⟩

/-- Whether a string is empty or consists of white space only. -/
def isBlank (s : String) : Bool := s.data.all isWhiteSpace

/-- The state cells of `SearchBar`: `symbol`, `loading`, `error`. -/
structure SearchBar where
  symbol : String
  loading : Bool
  error : Option String
deriving DecidableEq

/-- The first render of `SearchBar`: `useState('')`, `useState(false)`,
`useState(null)`. -/
def SearchBar.initial : SearchBar := ⟨"", false, none⟩

/-- What `handleSubmit` does to the outside: a call of `analyzeStock` or of the
prop `onAnalysisComplete`, with its argument. -/
inductive SearchEvent where
  | analyzeStock (symbol : String)
  | onAnalysisComplete (symbol : String)
deriving DecidableEq

/-- The `handleSubmit` of `SearchBar`, from its call to its end:
`if (!symbol.trim()) { setError(..); return }`
`setLoading(true); setError(null)`
`try { await analyzeStock(symbol.trim().toUpperCase());
       onAnalysisComplete(symbol.trim().toUpperCase()) }`
`catch (err) { setError(err.message || ..) } finally { setLoading(false) }`. -/
def handleSubmit (api : Axios Payload) (s : SearchBar) (log : List SearchEvent) :
    SearchBar × List SearchEvent :=
  if trim s.symbol = "" then
    ({ s with error := some "Please enter a stock symbol" }, log)
  else
    let s1 := { s with loading := true }
    let s2 := { s1 with error := none }
    match analyzeStock api (toUpperCase (trim s.symbol)) with
    | .ok _ =>
      let log1 := log ++ [.analyzeStock (toUpperCase (trim s.symbol))]
      let log2 := log1 ++ [.onAnalysisComplete (toUpperCase (trim s.symbol))]
      ({ s2 with loading := false }, log2)
    | .error err =>
      let log1 := log ++ [.analyzeStock (toUpperCase (trim s.symbol))]
      let message := orElse err.message "Failed to analyze stock. Please try again."
      let s3 := { s2 with error := some message }
      ({ s3 with loading := false }, log1)

/-- What the user does with the search form. -/
inductive SearchInput where
  /-- The text of the input becomes `value`:
  `onChange={(e) => setSymbol(e.target.value.toUpperCase())}`. -/
  | change (value : String)
  /-- The form is submitted while the server behaves as `api`. -/
  | submit (api : Axios Payload)

/-- The reaction of the form to one input; the text input and the submit
button are `disabled={loading}`. -/
def SearchBar.step (st : SearchBar × List SearchEvent) :
    SearchInput → SearchBar × List SearchEvent
  | .change value => if st.1.loading then st else ({ st.1 with symbol := toUpperCase value }, st.2)
  | .submit api => if st.1.loading then st else handleSubmit api st.1 st.2

/-- The form after a sequence of inputs, starting from its first render. -/
def SearchBar.run (inputs : List SearchInput) : SearchBar × List SearchEvent :=
  inputs.foldl SearchBar.step (SearchBar.initial, [])

/-- A server that answers every request with a failure status and the body
`{ error: value }`. -/
def Axios.refusingWith (value : FieldValue) : Axios Payload :=
  fun _ => .rejected (some ⟨some ⟨some value⟩⟩)

/-- A server that answers every request with a failure status and the body
`{ error: message }`, `message` being a string. -/
def Axios.refusing (message : String) : Axios Payload :=
  Axios.refusingWith (.string message)

/-- A server that cannot be reached: no response at all. -/
def Axios.unreachable : Axios Payload := fun _ => .rejected none

/-- A server that answers every request with the body `data`. -/
def Axios.answering (data : Payload) : Axios Payload := fun _ => .resolved data

/-! ## The store: load, star, unstar -/

/-- C1: after `loadStarredStocks`, `starredStocks` is exactly the list
`getStarredStocks` resolved with, or the prior list if it rejected; in both
cases `loading` is false. -/
theorem loadStarredStocks_replaces_or_keeps (r : Remote) (w : World) :
    (loadStarredStocks r w).2.starredStocks =
        (match r.getStarredStocks w.log with
         | .ok stocks => stocks
         | .error _ => w.starredStocks) ∧
      (loadStarredStocks r w).2.loading = false := by
  unfold loadStarredStocks
  cases h : r.getStarredStocks w.log <;> simp [h, World.record]

/-- C2: when `starStock(symbol)` rejects with `e`, `addStarredStock(symbol)`
rejects with the same `e`, the only collaborator call is that `starStock`
(no `getStarredStocks`), and `starredStocks` and `loading` are unchanged;
likewise for `removeStarredStock` and `unstarStock`. -/
theorem mutation_failure_propagates (r : Remote) (symbol : String) (w : World)
    (e : JsError) :
    (r.starStock symbol w.log = .error e →
      (addStarredStock r symbol w).1 = .error e ∧
      remoteCalls (addStarredStock r symbol w).2.log =
        remoteCalls w.log ++ [.starStock symbol (.error e)] ∧
      (addStarredStock r symbol w).2.starredStocks = w.starredStocks ∧
      (addStarredStock r symbol w).2.loading = w.loading) ∧
    (r.unstarStock symbol w.log = .error e →
      (removeStarredStock r symbol w).1 = .error e ∧
      remoteCalls (removeStarredStock r symbol w).2.log =
        remoteCalls w.log ++ [.unstarStock symbol (.error e)] ∧
      (removeStarredStock r symbol w).2.starredStocks = w.starredStocks ∧
      (removeStarredStock r symbol w).2.loading = w.loading) := by
  constructor
  · intro h
    simp [addStarredStock, h, World.record, remoteCalls, Event.isRemoteCall]
  · intro h
    simp [removeStarredStock, h, World.record, remoteCalls, Event.isRemoteCall]

/-- Witness of C2 on a server that is down, from the store holding TSLA. -/
theorem mutation_failure_propagates_witness :
    (addStarredStock Remote.down "MSFT" ⟨[entry "TSLA"], false, []⟩).1 =
        .error ⟨"Error", "Failed to star stock"⟩ ∧
      (removeStarredStock Remote.down "TSLA" ⟨[entry "TSLA"], false, []⟩).2.starredStocks =
        [entry "TSLA"] :=
  ⟨((mutation_failure_propagates Remote.down "MSFT" ⟨[entry "TSLA"], false, []⟩
      ⟨"Error", "Failed to star stock"⟩).1 rfl).1,
   ((mutation_failure_propagates Remote.down "TSLA" ⟨[entry "TSLA"], false, []⟩
      ⟨"Error", "Failed to unstar stock"⟩).2 rfl).2.2.1⟩

/-- C3: when `starStock(symbol)` resolves, the collaborator calls made by
`addStarredStock(symbol)` are that `starStock` followed by exactly one
`getStarredStocks`, and `starredStocks` afterwards is what that one reload
makes of it (the list it resolved with, or the prior list if it rejected);
likewise for `removeStarredStock` and `unstarStock`. -/
theorem mutation_success_reloads_once (r : Remote) (symbol : String) (w : World)
    (data : Payload) :
    (r.starStock symbol w.log = .ok data →
      remoteCalls (addStarredStock r symbol w).2.log =
        remoteCalls w.log ++
          [.starStock symbol (.ok data),
           .getStarredStocks (r.getStarredStocks (w.log ++ [.starStock symbol (.ok data)]))] ∧
      (addStarredStock r symbol w).2.starredStocks =
        (match r.getStarredStocks (w.log ++ [.starStock symbol (.ok data)]) with
         | .ok stocks => stocks
         | .error _ => w.starredStocks)) ∧
    (r.unstarStock symbol w.log = .ok data →
      remoteCalls (removeStarredStock r symbol w).2.log =
        remoteCalls w.log ++
          [.unstarStock symbol (.ok data),
           .getStarredStocks (r.getStarredStocks (w.log ++ [.unstarStock symbol (.ok data)]))] ∧
      (removeStarredStock r symbol w).2.starredStocks =
        (match r.getStarredStocks (w.log ++ [.unstarStock symbol (.ok data)]) with
         | .ok stocks => stocks
         | .error _ => w.starredStocks)) := by
  constructor
  · intro h
    cases hg : r.getStarredStocks (w.log ++ [.starStock symbol (.ok data)]) <;>
      simp [addStarredStock, loadStarredStocks, h, hg, World.record, remoteCalls,
        Event.isRemoteCall]
  · intro h
    cases hg : r.getStarredStocks (w.log ++ [.unstarStock symbol (.ok data)]) <;>
      simp [removeStarredStock, loadStarredStocks, h, hg, World.record, remoteCalls,
        Event.isRemoteCall]

/-- Witness of C3: starring MSFT on a server whose list is then MSFT, TSLA. -/
theorem mutation_success_reloads_once_witness :
    (addStarredStock (Remote.serving [entry "MSFT", entry "TSLA"]) "MSFT"
        ⟨[entry "TSLA"], false, []⟩).2.starredStocks = [entry "MSFT", entry "TSLA"] ∧
      remoteCalls (removeStarredStock (Remote.serving []) "TSLA"
        ⟨[entry "TSLA"], false, []⟩).2.log =
        [.unstarStock "TSLA" (.ok "unstarred"), .getStarredStocks (.ok [])] :=
  ⟨((mutation_success_reloads_once (Remote.serving [entry "MSFT", entry "TSLA"]) "MSFT"
      ⟨[entry "TSLA"], false, []⟩ "starred").1 rfl).2,
   ((mutation_success_reloads_once (Remote.serving []) "TSLA"
      ⟨[entry "TSLA"], false, []⟩ "unstarred").2 rfl).1⟩

/-! ## The visible list is the last list loaded -/

theorem lastLoaded_append (log es : List Event) :
    lastLoaded (log ++ es) =
      es.foldl (fun acc ev =>
        match ev with
        | .getStarredStocks (.ok stocks) => some stocks
        | _ => acc) (lastLoaded log) := by
  simp [lastLoaded, List.foldl_append]

theorem loadStarredStocks_fst (r : Remote) (w : World) :
    (loadStarredStocks r w).1 = .ok () := by
  simp only [loadStarredStocks]
  split <;> rfl

theorem addStarredStock_of_ok (r : Remote) (symbol : String) (w : World) (data : Payload)
    (h : r.starStock symbol w.log = .ok data) :
    addStarredStock r symbol w =
      loadStarredStocks r (w.record [.starStock symbol (.ok data)]) := by
  have h1 := loadStarredStocks_fst r (w.record [.starStock symbol (.ok data)])
  simp only [addStarredStock, h]
  revert h1
  generalize loadStarredStocks r (w.record [.starStock symbol (.ok data)]) = res
  obtain ⟨res1, res2⟩ := res
  intro h1
  simp only at h1
  subst h1
  rfl

theorem removeStarredStock_of_ok (r : Remote) (symbol : String) (w : World) (data : Payload)
    (h : r.unstarStock symbol w.log = .ok data) :
    removeStarredStock r symbol w =
      loadStarredStocks r (w.record [.unstarStock symbol (.ok data)]) := by
  have h1 := loadStarredStocks_fst r (w.record [.unstarStock symbol (.ok data)])
  simp only [removeStarredStock, h]
  revert h1
  generalize loadStarredStocks r (w.record [.unstarStock symbol (.ok data)]) = res
  obtain ⟨res1, res2⟩ := res
  intro h1
  simp only at h1
  subst h1
  rfl

theorem addStarredStock_of_error (r : Remote) (symbol : String) (w : World) (e : JsError)
    (h : r.starStock symbol w.log = .error e) :
    addStarredStock r symbol w =
      (.error e, (w.record [.starStock symbol (.error e)]).record
        [.consoleError "Failed to star stock:" e]) := by
  simp only [addStarredStock, h]

theorem removeStarredStock_of_error (r : Remote) (symbol : String) (w : World) (e : JsError)
    (h : r.unstarStock symbol w.log = .error e) :
    removeStarredStock r symbol w =
      (.error e, (w.record [.unstarStock symbol (.error e)]).record
        [.consoleError "Failed to unstar stock:" e]) := by
  simp only [removeStarredStock, h]

theorem synced_loadStarredStocks (r : Remote) (init : List StarredEntry) (w : World)
    (h : Synced init w) : Synced init (loadStarredStocks r w).2 := by
  unfold Synced at *
  simp only [loadStarredStocks]
  split
  · simp [World.record, lastLoaded_append]
  · simp [World.record, lastLoaded_append, h]

theorem lastLoaded_append_other (log es : List Event)
    (hes : ∀ ev ∈ es, ev.isGetStarredStocks = false) :
    lastLoaded (log ++ es) = lastLoaded log := by
  rw [lastLoaded_append]
  generalize lastLoaded log = acc
  induction es generalizing acc with
  | nil => rfl
  | cons ev es ih =>
    have hev := hes ev (List.mem_cons_self _ _)
    have ih2 := ih (fun x hx => hes x (List.mem_cons_of_mem _ hx))
    cases ev with
    | getStarredStocks res => simp [Event.isGetStarredStocks] at hev
    | starStock a b => exact ih2 acc
    | unstarStock a b => exact ih2 acc
    | refreshStock a b => exact ih2 acc
    | consoleError a b => exact ih2 acc

theorem synced_record (init : List StarredEntry) (w : World) (es : List Event)
    (hes : ∀ ev ∈ es, ev.isGetStarredStocks = false) (h : Synced init w) :
    Synced init (w.record es) := by
  unfold Synced at *
  simp only [World.record, lastLoaded_append_other _ _ hes]
  exact h

theorem synced_addStarredStock (r : Remote) (init : List StarredEntry) (symbol : String)
    (w : World) (h : Synced init w) : Synced init (addStarredStock r symbol w).2 := by
  cases hs : r.starStock symbol w.log with
  | error e =>
    rw [addStarredStock_of_error r symbol w e hs]
    exact synced_record _ _ _ (by simp [Event.isGetStarredStocks])
      (synced_record _ _ _ (by simp [Event.isGetStarredStocks]) h)
  | ok data =>
    rw [addStarredStock_of_ok r symbol w data hs]
    exact synced_loadStarredStocks r init _
      (synced_record _ _ _ (by simp [Event.isGetStarredStocks]) h)

theorem synced_removeStarredStock (r : Remote) (init : List StarredEntry) (symbol : String)
    (w : World) (h : Synced init w) : Synced init (removeStarredStock r symbol w).2 := by
  cases hs : r.unstarStock symbol w.log with
  | error e =>
    rw [removeStarredStock_of_error r symbol w e hs]
    exact synced_record _ _ _ (by simp [Event.isGetStarredStocks])
      (synced_record _ _ _ (by simp [Event.isGetStarredStocks]) h)
  | ok data =>
    rw [removeStarredStock_of_ok r symbol w data hs]
    exact synced_loadStarredStocks r init _
      (synced_record _ _ _ (by simp [Event.isGetStarredStocks]) h)

theorem synced_runOps (r : Remote) (init : List StarredEntry) (ops : List Op) :
    ∀ w : World, Synced init w → Synced init (runOps r w ops) := by
  induction ops with
  | nil => intro w h; exact h
  | cons op ops ih =>
    intro w h
    have hstep : Synced init (Op.apply r w op) := by
      cases op with
      | load => exact synced_loadStarredStocks r init w h
      | star symbol => exact synced_addStarredStock r init symbol w h
      | unstar symbol => exact synced_removeStarredStock r init symbol w h
    exact ih _ hstep

/-- C4: after any finite sequence of load, star and unstar operations on the
fresh store, whatever the outcome of each collaborator call, `starredStocks`
is the value of the most recent `getStarredStocks` call that resolved, or the
initial empty list if none did. -/
theorem starredStocks_eq_lastLoaded (r : Remote) (ops : List Op) :
    (runOps r World.initial ops).starredStocks =
      (lastLoaded (runOps r World.initial ops).log).getD [] :=
  synced_runOps r [] ops World.initial rfl

/-! ## One refresh cycle, run to its end -/

theorem refreshedSymbols_append (log es : List Event) :
    refreshedSymbols (log ++ es) = refreshedSymbols log ++ refreshedSymbols es := by
  simp [refreshedSymbols]

theorem remoteCalls_append (log es : List Event) :
    remoteCalls (log ++ es) = remoteCalls log ++ remoteCalls es := by
  simp [remoteCalls]

theorem refreshedSymbols_refreshOne (r : Remote) (stock : StarredEntry) (w : World) :
    refreshedSymbols (refreshOne r stock w).log = refreshedSymbols w.log ++ [stock.symbol] := by
  simp only [refreshOne]
  split <;> simp [World.record, refreshedSymbols]

theorem refreshedSymbols_refreshEach (r : Remote) (stocks : List StarredEntry) :
    ∀ w : World, refreshedSymbols (refreshEach r stocks w).log =
      refreshedSymbols w.log ++ stocks.map (fun stock => stock.symbol) := by
  induction stocks with
  | nil => intro w; simp [refreshEach]
  | cons stock rest ih =>
    intro w
    simp only [refreshEach]
    rw [ih, refreshedSymbols_refreshOne]
    simp

theorem loadStarredStocks_refreshedSymbols (r : Remote) (w : World) :
    refreshedSymbols (loadStarredStocks r w).2.log = refreshedSymbols w.log := by
  simp only [loadStarredStocks]
  split <;> simp [World.record, refreshedSymbols]

theorem refreshAllStocks_world (r : Remote) (stocks : List StarredEntry) (d : Dashboard)
    (w : World) :
    refreshAllStocks r stocks d w =
      (.ok (), { d with refreshing := false },
        (loadStarredStocks r (refreshEach r stocks w)).2) := by
  have h1 := loadStarredStocks_fst r (refreshEach r stocks w)
  simp only [refreshAllStocks, refreshStarredStocks]
  revert h1
  generalize loadStarredStocks r (refreshEach r stocks w) = res
  obtain ⟨res1, res2⟩ := res
  intro h1
  simp only at h1
  subst h1
  rfl

/-- C5: whatever the outcome of each `refreshStock` call, `refreshAllStocks`
calls `refreshStock` exactly once per entry of the list, with that entry's
symbol, in list order. -/
theorem refreshAllStocks_refreshes_each_in_order (r : Remote)
    (starredStocks : List StarredEntry) (d : Dashboard) (w : World) :
    refreshedSymbols (refreshAllStocks r starredStocks d w).2.2.log =
      refreshedSymbols w.log ++ starredStocks.map (fun stock => stock.symbol) := by
  rw [refreshAllStocks_world]
  simp only [loadStarredStocks_refreshedSymbols, refreshedSymbols_refreshEach]

theorem remoteCalls_refreshOne (r : Remote) (stock : StarredEntry) (w : World) :
    remoteCalls (refreshOne r stock w).log =
      remoteCalls w.log ++ [.refreshStock stock.symbol (r.refreshStock stock.symbol w.log)] := by
  simp only [refreshOne]
  split <;> rename_i h <;> simp [World.record, remoteCalls, Event.isRemoteCall, h]

theorem remoteCalls_refreshEach (r : Remote) (stocks : List StarredEntry) :
    ∀ w : World, ∃ attempts : List Event,
      remoteCalls (refreshEach r stocks w).log = remoteCalls w.log ++ attempts ∧
      attempts.length = stocks.length ∧
      ∀ ev ∈ attempts, ev.isRefreshStock = true := by
  induction stocks with
  | nil => intro w; exact ⟨[], by simp [refreshEach], rfl, by simp⟩
  | cons stock rest ih =>
    intro w
    obtain ⟨attempts, h1, h2, h3⟩ := ih (refreshOne r stock w)
    refine ⟨.refreshStock stock.symbol (r.refreshStock stock.symbol w.log) :: attempts,
      ?_, by simp [h2], ?_⟩
    · simp only [refreshEach]
      rw [h1, remoteCalls_refreshOne]
      simp
    · intro ev hev
      rcases List.mem_cons.mp hev with h | h
      · subst h; rfl
      · exact h3 ev h

theorem remoteCalls_loadStarredStocks (r : Remote) (w : World) :
    remoteCalls (loadStarredStocks r w).2.log =
      remoteCalls w.log ++ [.getStarredStocks (r.getStarredStocks w.log)] := by
  simp only [loadStarredStocks]
  split <;> rename_i h <;> simp [World.record, remoteCalls, Event.isRemoteCall, h]

/-- C6: whatever the outcome of each `refreshStock` call, the collaborator
calls made by `refreshAllStocks` are one `refreshStock` attempt per entry
followed by exactly one `getStarredStocks` (the store's load), and when
`refreshAllStocks` finishes it has settled normally with `refreshing`
false. -/
theorem refreshAllStocks_reloads_once_then_idle (r : Remote)
    (starredStocks : List StarredEntry) (d : Dashboard) (w : World) :
    ∃ (attempts : List Event) (res : Except JsError (List StarredEntry)),
      remoteCalls (refreshAllStocks r starredStocks d w).2.2.log =
        remoteCalls w.log ++ attempts ++ [.getStarredStocks res] ∧
      attempts.length = starredStocks.length ∧
      (∀ ev ∈ attempts, ev.isRefreshStock = true) ∧
      (refreshAllStocks r starredStocks d w).2.1.refreshing = false ∧
      (refreshAllStocks r starredStocks d w).1 = .ok () := by
  obtain ⟨attempts, h1, h2, h3⟩ := remoteCalls_refreshEach r starredStocks w
  refine ⟨attempts, r.getStarredStocks (refreshEach r starredStocks w).log, ?_, h2, h3, ?_, ?_⟩
  · rw [refreshAllStocks_world]
    simp only [remoteCalls_loadStarredStocks, h1]
  · rw [refreshAllStocks_world]
  · rw [refreshAllStocks_world]

/-! ## The scheduler: a cycle started while another one runs -/

theorem runCleanup_world (s : Scheduler) : s.runCleanup.world = s.world := by
  unfold Scheduler.runCleanup
  split <;> rfl

theorem runCleanup_dashboard (s : Scheduler) : s.runCleanup.dashboard = s.dashboard := by
  unfold Scheduler.runCleanup
  split <;> rfl

theorem runCleanup_cycles (s : Scheduler) : s.runCleanup.cycles = s.cycles := by
  unfold Scheduler.runCleanup
  split <;> rfl

theorem render_world (s : Scheduler) : s.render.world = s.world := by
  simp only [Scheduler.render]
  split_ifs <;> simp only [runCleanup_world]

theorem render_dashboard (s : Scheduler) : s.render.dashboard = s.dashboard := by
  simp only [Scheduler.render]
  split_ifs <;> simp only [runCleanup_dashboard]

theorem render_cycles (s : Scheduler) : s.render.cycles = s.cycles := by
  simp only [Scheduler.render]
  split_ifs <;> simp only [runCleanup_cycles]

/-- The step-by-step scheduler agrees with `refreshAllStocks` run to its end:
a single invocation in flight over `stocks`, resumed until it is done, leaves
the store as `refreshAllStocks` does, with `refreshing` false and nothing in
flight. -/
theorem run_single_cycle (r : Remote) (stocks : List StarredEntry) :
    ∀ s : Scheduler, s.cycles = [⟨stocks⟩] →
      (Scheduler.run r s (List.replicate (stocks.length + 1) (.resume 0))).world =
          (refreshAllStocks r stocks s.dashboard s.world).2.2 ∧
        (Scheduler.run r s
          (List.replicate (stocks.length + 1) (.resume 0))).dashboard.refreshing = false ∧
        (Scheduler.run r s (List.replicate (stocks.length + 1) (.resume 0))).cycles = [] := by
  induction stocks with
  | nil =>
    intro s hs
    simp only [List.length_nil, Nat.zero_add, List.replicate_one, Scheduler.run,
      List.foldl_cons, List.foldl_nil, Scheduler.step, render_world, render_dashboard,
      render_cycles, refreshAllStocks_world, refreshEach]
    simp [Scheduler.react, hs, refreshStarredStocks]
  | cons stock rest ih =>
    intro s hs
    have hstep : (Scheduler.step r s (.resume 0)).cycles = [⟨rest⟩] := by
      simp [Scheduler.step, render_cycles, Scheduler.react, hs]
    have hworld : (Scheduler.step r s (.resume 0)).world = refreshOne r stock s.world := by
      simp [Scheduler.step, render_world, Scheduler.react, hs]
    have h := ih (Scheduler.step r s (.resume 0)) hstep
    simp only [refreshAllStocks_world, hworld] at h
    simp only [List.length_cons, List.replicate_succ, Scheduler.run, List.foldl_cons,
      refreshAllStocks_world, refreshEach]
    simpa only [Scheduler.run, List.replicate_succ, List.foldl_cons] using h

/-- C7 (the code at the failing input): with AAPL starred and auto-refresh on,
a click on Refresh All starts a cycle; the timer firing while that cycle is
still running (`refreshing` is true) starts a second one, which goes on to call
`refreshStock("AAPL")` on its own while the first is still in flight, so AAPL
ends up refreshed twice. A click while refreshing, however, changes nothing. -/
theorem timer_starts_cycle_while_refreshing :
    (Scheduler.run (Remote.serving [entry "AAPL"])
        (Scheduler.mount ⟨[entry "AAPL"], false, []⟩)
        [.clickRefreshAll]).dashboard.refreshing = true ∧
      (Scheduler.run (Remote.serving [entry "AAPL"])
        (Scheduler.mount ⟨[entry "AAPL"], false, []⟩)
        [.clickRefreshAll]).cycles = [⟨[entry "AAPL"]⟩] ∧
      (Scheduler.run (Remote.serving [entry "AAPL"])
        (Scheduler.mount ⟨[entry "AAPL"], false, []⟩)
        [.clickRefreshAll, .timerFires 0]).cycles = [⟨[entry "AAPL"]⟩, ⟨[entry "AAPL"]⟩] ∧
      (Scheduler.run (Remote.serving [entry "AAPL"])
        (Scheduler.mount ⟨[entry "AAPL"], false, []⟩)
        [.clickRefreshAll, .timerFires 0, .resume 1]).cycles = [⟨[entry "AAPL"]⟩, ⟨[]⟩] ∧
      refreshedSymbols (Scheduler.run (Remote.serving [entry "AAPL"])
        (Scheduler.mount ⟨[entry "AAPL"], false, []⟩)
        [.clickRefreshAll, .timerFires 0, .resume 1]).world.log = ["AAPL"] ∧
      refreshedSymbols (Scheduler.run (Remote.serving [entry "AAPL"])
        (Scheduler.mount ⟨[entry "AAPL"], false, []⟩)
        [.clickRefreshAll, .timerFires 0, .resume 1, .resume 0, .resume 0, .resume 0]).world.log =
          ["AAPL", "AAPL"] ∧
      (Scheduler.run (Remote.serving [entry "AAPL"])
        (Scheduler.mount ⟨[entry "AAPL"], false, []⟩)
        [.clickRefreshAll, .clickRefreshAll]).cycles = [⟨[entry "AAPL"]⟩] := by
  decide

/-! ## isStarred -/

theorem toUpper_of_not_lower (c : Char) (h : ¬ (c.toNat ≥ 97 ∧ c.toNat ≤ 122)) :
    c.toUpper = c := by
  show (if c.toNat ≥ 97 ∧ c.toNat ≤ 122 then Char.ofNat (c.toNat - 32) else c) = c
  rw [if_neg h]

theorem toLower_of_not_upper (c : Char) (h : ¬ (c.toNat ≥ 65 ∧ c.toNat ≤ 90)) :
    c.toLower = c := by
  show (if c.toNat ≥ 65 ∧ c.toNat ≤ 90 then Char.ofNat (c.toNat + 32) else c) = c
  rw [if_neg h]

theorem toUpper_toLower_ascii :
    ∀ n : Fin 128, (Char.ofNat n).toLower.toUpper = (Char.ofNat n).toUpper.toUpper := by
  decide

theorem toUpper_toLower_char (c : Char) : c.toLower.toUpper = c.toUpper.toUpper := by
  by_cases h : c.toNat < 128
  · have key := toUpper_toLower_ascii ⟨c.toNat, h⟩
    simpa [Char.ofNat_toNat] using key
  · rw [toLower_of_not_upper c (by omega), toUpper_of_not_lower c (by omega),
      toUpper_of_not_lower c (by omega)]

theorem toUpper_toUpper_ascii :
    ∀ n : Fin 128, (Char.ofNat n).toUpper.toUpper = (Char.ofNat n).toUpper := by
  decide

theorem toUpper_toUpper_char (c : Char) : c.toUpper.toUpper = c.toUpper := by
  by_cases h : c.toNat < 128
  · have key := toUpper_toUpper_ascii ⟨c.toNat, h⟩
    simpa [Char.ofNat_toNat] using key
  · rw [toUpper_of_not_lower c (by omega), toUpper_of_not_lower c (by omega)]

theorem toUpperChar_ascii :
    ∀ n : Fin 128, toUpperChar (Char.ofNat n) = [(Char.ofNat n).toUpper] := by
  decide

theorem toLowerChar_ascii :
    ∀ n : Fin 128, toLowerChar (Char.ofNat n) = [(Char.ofNat n).toLower] := by
  decide

theorem toLower_ascii_lt :
    ∀ n : Fin 128, (Char.ofNat n).toLower.toNat < 128 := by
  decide

theorem toUpper_ascii_lt :
    ∀ n : Fin 128, (Char.ofNat n).toUpper.toNat < 128 := by
  decide

theorem upperChars_ascii (l : List Char) (h : ∀ c ∈ l, c.toNat < 128) :
    upperChars l = l.map Char.toUpper := by
  induction l with
  | nil => rfl
  | cons c rest ih =>
    have hc := h c (List.mem_cons_self _ _)
    have key := toUpperChar_ascii ⟨c.toNat, hc⟩
    simp only [Char.ofNat_toNat] at key
    simp only [upperChars, key, List.map_cons, List.singleton_append]
    rw [ih (fun x hx => h x (List.mem_cons_of_mem _ hx))]

theorem lowerChars_ascii (l : List Char) (h : ∀ c ∈ l, c.toNat < 128) :
    ∀ before : List Char, lowerChars before l = l.map Char.toLower := by
  induction l with
  | nil => intro before; rfl
  | cons c rest ih =>
    intro before
    have hc := h c (List.mem_cons_self _ _)
    have key := toLowerChar_ascii ⟨c.toNat, hc⟩
    simp only [Char.ofNat_toNat] at key
    have hsigma : ¬ c.toNat = 931 := by omega
    simp only [lowerChars, hsigma, if_false, key, List.map_cons, List.singleton_append]
    rw [ih (fun x hx => h x (List.mem_cons_of_mem _ hx))]

theorem map_toLower_ascii (l : List Char) (h : ∀ c ∈ l, c.toNat < 128) :
    ∀ c ∈ l.map Char.toLower, c.toNat < 128 := by
  intro c hc
  obtain ⟨a, ha, rfl⟩ := List.mem_map.mp hc
  have key := toLower_ascii_lt ⟨a.toNat, h a ha⟩
  simpa [Char.ofNat_toNat] using key

theorem map_toUpper_ascii (l : List Char) (h : ∀ c ∈ l, c.toNat < 128) :
    ∀ c ∈ l.map Char.toUpper, c.toNat < 128 := by
  intro c hc
  obtain ⟨a, ha, rfl⟩ := List.mem_map.mp hc
  have key := toUpper_ascii_lt ⟨a.toNat, h a ha⟩
  simpa [Char.ofNat_toNat] using key

theorem isAscii_iff (s : String) : isAscii s = true ↔ ∀ c ∈ s.data, c.toNat < 128 := by
  simp [isAscii, List.all_eq_true]

theorem toUpperCase_ascii (s : String) (h : isAscii s = true) :
    toUpperCase s = ⟨s.data.map Char.toUpper⟩ := by
  simp only [toUpperCase, upperChars_ascii s.data ((isAscii_iff s).mp h)]

theorem toLowerCase_ascii (s : String) (h : isAscii s = true) :
    toLowerCase s = ⟨s.data.map Char.toLower⟩ := by
  simp only [toLowerCase, lowerChars_ascii s.data ((isAscii_iff s).mp h) []]

theorem toUpperCase_toLowerCase (s : String) (h : isAscii s = true) :
    toUpperCase (toLowerCase s) = toUpperCase s := by
  have hs := (isAscii_iff s).mp h
  rw [toLowerCase_ascii s h, toUpperCase_ascii s h]
  simp only [toUpperCase, upperChars_ascii _ (map_toLower_ascii s.data hs), List.map_map]
  congr 1
  apply List.map_congr_left
  intro c _
  simp only [Function.comp_apply]
  rw [toUpper_toLower_char, toUpper_toUpper_char]

theorem toUpperCase_idem (s : String) (h : isAscii s = true) :
    toUpperCase (toUpperCase s) = toUpperCase s := by
  have hs := (isAscii_iff s).mp h
  rw [toUpperCase_ascii s h]
  simp only [toUpperCase, upperChars_ascii _ (map_toUpper_ascii s.data hs), List.map_map]
  congr 1
  apply List.map_congr_left
  intro c _
  simp only [Function.comp_apply]
  rw [toUpper_toUpper_char]

/-- C8 refuted as stated: the list holds the symbol U+212A (KELVIN SIGN). Its
lower case is `k`, whose upper case is `K`, so `isStarred` of the lower-case
form is false; its upper case is U+212A itself, so `isStarred` of the
upper-case form is true. -/
theorem isStarred_kelvin_sign :
    toLowerCase kelvinSign = "k" ∧
      toUpperCase kelvinSign = kelvinSign ∧
      isStarred [entry kelvinSign] (.str (toLowerCase kelvinSign)) = .ok false ∧
      isStarred [entry kelvinSign] (.str (toUpperCase kelvinSign)) = .ok true := by
  decide

/-- C8 as amended: for every starred list and every string `s` of ASCII
characters, `isStarred` gives the same result for `s` in lower case and for `s`
in upper case, which is also its result for `s` itself: the stored symbols are
compared with the query after its letters `a` to `z` have been replaced by `A`
to `Z`. -/
theorem isStarred_case_insensitive (starredStocks : List StarredEntry) (s : String)
    (h : isAscii s = true) :
    isStarred starredStocks (.str (toLowerCase s)) =
        isStarred starredStocks (.str (toUpperCase s)) ∧
      isStarred starredStocks (.str s) = isStarred starredStocks (.str (toUpperCase s)) ∧
      isStarred starredStocks (.str s) =
        .ok (starredStocks.any fun stock => stock.symbol == ⟨s.data.map Char.toUpper⟩) := by
  cases starredStocks with
  | nil => exact ⟨rfl, rfl, rfl⟩
  | cons stock rest =>
    exact ⟨by simp only [isStarred, toUpperCase_toLowerCase s h, toUpperCase_idem s h],
      by simp only [isStarred, toUpperCase_idem s h],
      by simp only [isStarred, toUpperCase_ascii s h]⟩

/-- Witness of C8 as amended: AAPL is starred and the query is `aApl`. -/
theorem isStarred_case_insensitive_witness :
    isStarred [entry "AAPL"] (.str (toLowerCase "aApl")) =
        isStarred [entry "AAPL"] (.str (toUpperCase "aApl")) ∧
      isStarred [entry "AAPL"] (.str "aApl") = .ok true :=
  ⟨(isStarred_case_insensitive [entry "AAPL"] "aApl" (by decide)).1,
   (isStarred_case_insensitive [entry "AAPL"] "aApl" (by decide)).2.2⟩

/-- C9 refuted as stated: on a non-empty list `isStarred(undefined)` throws a
`TypeError` instead of returning false, and `isStarred("")` is true when an
entry with the empty symbol is stored. -/
theorem isStarred_undefined_throws :
    isStarred [entry "AAPL"] .undefined =
        .error (propertyTypeError "undefined" "toUpperCase") ∧
      isStarred [entry ""] (.str "") = .ok true := by
  decide

/-- C9 as amended: `isStarred("")` returns whether some stored entry has the
empty symbol, so it returns false on every list without such an entry;
`isStarred(undefined)` returns false on the empty list and throws a
`TypeError` on every other list. -/
theorem isStarred_empty_or_undefined (starredStocks : List StarredEntry) :
    isStarred starredStocks (.str "") =
        .ok (starredStocks.any fun stock => stock.symbol == "") ∧
      isStarred starredStocks .undefined =
        (if starredStocks = [] then .ok false
         else .error (propertyTypeError "undefined" "toUpperCase")) := by
  cases starredStocks with
  | nil => exact ⟨rfl, rfl⟩
  | cons stock rest =>
    refine ⟨?_, by simp [isStarred]⟩
    have h : toUpperCase "" = "" := by decide
    simp only [isStarred, h]

/-! ## A failed load is not visible to the caller -/

/-- C10 refuted as stated: on a server that is down `loadStarredStocks`
settles exactly as it does on a server that answers, with no error for the
caller; the failure only reaches `console.error`. -/
theorem loadStarredStocks_swallows_failure :
    (loadStarredStocks Remote.down World.initial).1 = .ok () ∧
      (loadStarredStocks Remote.down World.initial).1 =
        (loadStarredStocks (Remote.serving [entry "TSLA"]) World.initial).1 ∧
      (loadStarredStocks Remote.down World.initial).2.log =
        [.getStarredStocks (.error ⟨"Error", "Failed to fetch starred stocks"⟩),
         .consoleError "Failed to load starred stocks:"
           ⟨"Error", "Failed to fetch starred stocks"⟩] := by
  decide

/-- C10 as amended: whatever `getStarredStocks` does, `loadStarredStocks`
(also under its name `refreshStarredStocks`) resolves normally; when
`getStarredStocks` rejects with `e` the error is passed to `console.error`
and nothing else is recorded, and `addStarredStock` and `removeStarredStock`
resolve whenever their own remote mutation resolved. -/
theorem loadStarredStocks_never_rejects (r : Remote) (w : World) :
    (loadStarredStocks r w).1 = .ok () ∧
      (refreshStarredStocks r w).1 = .ok () ∧
      (∀ e, r.getStarredStocks w.log = .error e →
        (loadStarredStocks r w).2.log =
          w.log ++ [.getStarredStocks (.error e),
                    .consoleError "Failed to load starred stocks:" e]) ∧
      (∀ symbol data, r.starStock symbol w.log = .ok data →
        (addStarredStock r symbol w).1 = .ok ()) ∧
      (∀ symbol data, r.unstarStock symbol w.log = .ok data →
        (removeStarredStock r symbol w).1 = .ok ()) := by
  refine ⟨loadStarredStocks_fst r w, loadStarredStocks_fst r w, ?_, ?_, ?_⟩
  · intro e h
    simp [loadStarredStocks, h, World.record]
  · intro symbol data h
    rw [addStarredStock_of_ok r symbol w data h]
    exact loadStarredStocks_fst r _
  · intro symbol data h
    rw [removeStarredStock_of_ok r symbol w data h]
    exact loadStarredStocks_fst r _

/-- Witness of C10 as amended: the list request fails after a successful
star, and `addStarredStock` still resolves. -/
theorem loadStarredStocks_never_rejects_witness :
    (loadStarredStocks Remote.down World.initial).2.log =
        [.getStarredStocks (.error ⟨"Error", "Failed to fetch starred stocks"⟩),
         .consoleError "Failed to load starred stocks:"
           ⟨"Error", "Failed to fetch starred stocks"⟩] ∧
      (addStarredStock Remote.starOnly "MSFT" World.initial).1 = .ok () :=
  ⟨(loadStarredStocks_never_rejects Remote.down World.initial).2.2.1 _ rfl,
   (loadStarredStocks_never_rejects Remote.starOnly World.initial).2.2.2.1 "MSFT" "starred" rfl⟩

/-! ## The per-symbol load: no request de-duplication -/

/-- C11 refuted as stated: two `StockCard` instances mounted for AAPL, the
second while the first is still loading, make two `analyzeStock("AAPL")` calls,
both pending; and a `StockAnalysis` whose `loadAnalysis` is called again
while it is loading calls `analyzeStock` a second time. -/
theorem overlapping_loads_call_twice :
    ((Page.empty.mount .stockCard "AAPL").mounted.map fun m => m.entry.loading) = [true] ∧
      ((Page.empty.mount .stockCard "AAPL").mount .stockCard "AAPL").calls =
        ["AAPL", "AAPL"] ∧
      ((Page.empty.mount .stockCard "AAPL").mount .stockCard "AAPL").inFlight = [0, 1] ∧
      ((Page.empty.mount .stockAnalysis "AAPL").load 0).calls = ["AAPL", "AAPL"] := by
  decide

theorem loadStart_calls (component : Component) (e : Entry) (calls : List String) :
    (component.loadStart e calls).2 = calls ++ [e.symbol] := by
  cases component <;> rfl

/-- C11 as amended: every load request calls `analyzeStock` once more, whatever
the state of the page: mounting a component for a symbol adds one
`analyzeStock(symbol)` call even when a fetch for that symbol is pending, and
so does calling the load function of an existing instance again, also while
that instance is loading. -/
theorem every_load_calls_analyzeStock (p : Page) (component : Component)
    (symbol : String) (i : Nat) :
    (p.mount component symbol).calls = p.calls ++ [symbol] ∧
      (p.load i).calls =
        p.calls ++ ((p.mounted.get? i).map fun m => m.entry.symbol).toList := by
  constructor
  · simp [Page.mount, Page.load, loadStart_calls, Entry.initial]
  · unfold Page.load
    cases h : p.mounted.get? i with
    | none => simp
    | some m => simp [loadStart_calls]

/-! ## The per-symbol load: Ready or Failed -/

theorem mounted_settleAt_other (p : Page) (k : Nat) (result : Except JsError Payload)
    (j : Nat) (h : p.inFlight.get? k ≠ some j) :
    (p.settleAt k result).mounted.get? j = p.mounted.get? j := by
  unfold Page.settleAt
  cases hk : p.inFlight.get? k with
  | none => rfl
  | some i =>
    have hij : i ≠ j := by
      intro hEq
      apply h
      rw [hk, hEq]
    simp only
    split
    · rfl
    · simp only [List.get?_eq_getElem?]
      exact List.getElem?_set_ne hij

/-- C12 refuted as stated: the server answers `{ error: [] }`; the empty array
is truthy and converts to the empty string, so `analyzeStock` rejects with the
message `""`, and `loadAnalysis` of `StockAnalysis` then stores its own text
`Failed to load analysis` as the entry's error, not that message. -/
theorem loadAnalysis_empty_message :
    analyzeStock (Axios.refusingWith (.array (.ok ""))) "AAPL" = .error ⟨"Error", ""⟩ ∧
      (StockAnalysis.loadAnalysis (Axios.refusingWith (.array (.ok "")))
        (Entry.initial "AAPL")).error = some "Failed to load analysis" ∧
      (StockCard.loadData (Axios.refusingWith (.array (.ok "")))
        (Entry.initial "AAPL")).error = some "" := by
  decide

/-- C12 as amended: when a per-symbol load completes, if `analyzeStock`
resolved with `p` the entry holds `p` with error null and loading false; if it
rejected with message `m`, loading is false, the payload held before is
unchanged and the entry's error is `m` for `StockCard.loadData`, and for
`StockAnalysis.loadAnalysis` it is `m` when `m` is not empty and the text
`Failed to load analysis` when it is. No other entry of the page changes when
a load settles, and the calls made are left as they were. -/
theorem load_completes_ready_or_failed (api : Axios Payload) (e : Entry) (p : Page)
    (k j : Nat) (result : Except JsError Payload) :
    (StockCard.loadData api e =
        match analyzeStock api e.symbol with
        | .ok payload => ⟨e.symbol, some payload, false, none⟩
        | .error err => ⟨e.symbol, e.data, false, some err.message⟩) ∧
      (StockAnalysis.loadAnalysis api e =
        match analyzeStock api e.symbol with
        | .ok payload => ⟨e.symbol, some payload, false, none⟩
        | .error err =>
          ⟨e.symbol, e.data, false,
            some (if err.message = "" then "Failed to load analysis" else err.message)⟩) ∧
      (p.inFlight.get? k ≠ some j →
        (p.settleAt k result).mounted.get? j = p.mounted.get? j) ∧
      (p.settleAt k result).calls = p.calls := by
  refine ⟨?_, ?_, mounted_settleAt_other p k result j, ?_⟩
  · unfold StockCard.loadData
    cases h : analyzeStock api e.symbol <;> rfl
  · unfold StockAnalysis.loadAnalysis
    cases h : analyzeStock api e.symbol <;> rfl
  · unfold Page.settleAt
    split
    · rfl
    · split <;> rfl

/-- Witness of C12 as amended: MSFT fails to load next to AAPL, whose entry
is left as it was. -/
theorem load_completes_ready_or_failed_witness :
    StockCard.loadData (Axios.refusing "Unknown symbol") ⟨"MSFT", some "old", false, none⟩ =
        ⟨"MSFT", some "old", false, some "Unknown symbol"⟩ ∧
      StockAnalysis.loadAnalysis (Axios.refusing "Unknown symbol")
          ⟨"MSFT", some "old", false, none⟩ =
        ⟨"MSFT", some "old", false, some "Unknown symbol"⟩ ∧
      (((Page.empty.mount .stockCard "AAPL").mount .stockCard "MSFT").settleAt 1
        (.error ⟨"Error", "Unknown symbol"⟩)).mounted.get? 0 =
        some ⟨.stockCard, ⟨"AAPL", none, true, none⟩⟩ :=
  ⟨(load_completes_ready_or_failed (Axios.refusing "Unknown symbol")
      ⟨"MSFT", some "old", false, none⟩ Page.empty 0 0 (.ok "")).1,
   (load_completes_ready_or_failed (Axios.refusing "Unknown symbol")
      ⟨"MSFT", some "old", false, none⟩ Page.empty 0 0 (.ok "")).2.1,
   (load_completes_ready_or_failed (Axios.answering "") (Entry.initial "AAPL")
      ((Page.empty.mount .stockCard "AAPL").mount .stockCard "MSFT") 1 0
      (.error ⟨"Error", "Unknown symbol"⟩)).2.2.1 (by decide)⟩

/-! ## The auto-refresh timer -/

theorem react_timers (r : Remote) (s : Scheduler) (i : Input) :
    (s.react r i).timers = s.timers ∧ (s.react r i).deps = s.deps ∧
      (s.react r i).cleanup = s.cleanup := by
  cases i with
  | timerFires handle =>
    simp only [Scheduler.react]
    cases s.timers.find? (fun t => t.handle == handle) <;> exact ⟨rfl, rfl, rfl⟩
  | clickRefreshAll =>
    simp only [Scheduler.react]
    cases s.dashboard.refreshing <;> exact ⟨rfl, rfl, rfl⟩
  | resume k =>
    simp only [Scheduler.react]
    cases s.cycles.get? k with
    | none => exact ⟨rfl, rfl, rfl⟩
    | some c =>
      obtain ⟨pending⟩ := c
      cases pending <;> exact ⟨rfl, rfl, rfl⟩
  | setAutoRefresh checked => exact ⟨rfl, rfl, rfl⟩
  | setRefreshInterval minutes => exact ⟨rfl, rfl, rfl⟩
  | addStarredStock symbol => exact ⟨rfl, rfl, rfl⟩
  | removeStarredStock symbol => exact ⟨rfl, rfl, rfl⟩

theorem timerInv_react (r : Remote) (s : Scheduler) (i : Input) (h : TimerInv s) :
    TimerInv (s.react r i) := by
  obtain ⟨h1, h2, h3⟩ := react_timers r s i
  unfold TimerInv
  rw [h1, h2, h3]
  exact h

theorem runCleanup_timers (s : Scheduler)
    (h : (s.timers = [] ∧ s.cleanup = none) ∨ ∃ t, s.timers = [t] ∧ s.cleanup = some t.handle) :
    s.runCleanup.timers = [] := by
  unfold Scheduler.runCleanup
  rcases h with ⟨h1, h2⟩ | ⟨t, h1, h2⟩
  · rw [h2]
    exact h1
  · rw [h2]
    simp [h1]

theorem runCleanup_nextHandle (s : Scheduler) : s.runCleanup.nextHandle = s.nextHandle := by
  unfold Scheduler.runCleanup
  split <;> rfl

theorem timerInv_render (s : Scheduler) (h : TimerInv s) :
    TimerInv s.render ∧ s.render.deps = some s.render.currentDeps := by
  by_cases hd : s.deps = some s.currentDeps
  · have hr : s.render = s := by simp [Scheduler.render, hd]
    rw [hr]
    exact ⟨h, hd⟩
  · have ht := runCleanup_timers s h.1
    by_cases hc : s.dashboard.autoRefresh = true ∧ 0 < s.world.starredStocks.length
    · have hr : s.render =
          { s.runCleanup with
            deps := some s.currentDeps,
            timers := [⟨s.nextHandle, s.dashboard.refreshInterval * 60 * 1000,
              s.world.starredStocks⟩],
            nextHandle := s.nextHandle + 1,
            cleanup := some s.nextHandle } := by
        unfold Scheduler.render
        rw [if_neg hd]
        simp only [runCleanup_dashboard, runCleanup_world, runCleanup_nextHandle, ht]
        rw [if_pos (by simp [hc.1, hc.2])]
        simp [Scheduler.currentDeps, runCleanup_dashboard, runCleanup_world]
      rw [hr]
      refine ⟨⟨Or.inr ⟨_, rfl, rfl⟩, ?_⟩, ?_⟩
      · intro d hdeps
        simp only [Option.some.injEq] at hdeps
        subst hdeps
        simp only [Scheduler.currentDeps, hc, and_self, if_true]
        exact ⟨_, rfl, rfl⟩
      · simp [Scheduler.currentDeps, runCleanup_dashboard, runCleanup_world]
    · have hr : s.render =
          { s.runCleanup with deps := some s.currentDeps, timers := [], cleanup := none } := by
        have hc2 : (s.dashboard.autoRefresh && decide (s.world.starredStocks.length > 0)) = false := by
          cases ha : s.dashboard.autoRefresh
          · rfl
          · simp only [ha, true_and] at hc
            simp [hc]
        unfold Scheduler.render
        rw [if_neg hd]
        simp only [runCleanup_dashboard, runCleanup_world, hc2]
        simp [Scheduler.currentDeps, runCleanup_dashboard, runCleanup_world, ht]
      rw [hr]
      refine ⟨⟨Or.inl ⟨rfl, rfl⟩, ?_⟩, ?_⟩
      · intro d hdeps
        simp only [Option.some.injEq] at hdeps
        subst hdeps
        simp only [Scheduler.currentDeps, hc, if_false]
      · simp [Scheduler.currentDeps, runCleanup_dashboard, runCleanup_world]

theorem timerInv_mount (w : World) :
    TimerInv (Scheduler.mount w) ∧
      (Scheduler.mount w).deps = some (Scheduler.mount w).currentDeps := by
  apply timerInv_render
  exact ⟨Or.inl ⟨rfl, rfl⟩, fun d hd => by cases hd⟩

theorem timerInv_run (r : Remote) (inputs : List Input) :
    ∀ s : Scheduler, TimerInv s ∧ s.deps = some s.currentDeps →
      TimerInv (Scheduler.run r s inputs) ∧
        (Scheduler.run r s inputs).deps = some (Scheduler.run r s inputs).currentDeps := by
  induction inputs with
  | nil => intro s h; exact h
  | cons i rest ih =>
    intro s h
    exact ih _ (timerInv_render _ (timerInv_react r s i h.1))

theorem timers_of_inv (s : Scheduler) (h : TimerInv s) (hd : s.deps = some s.currentDeps) :
    s.timers.length ≤ 1 ∧
      (s.timers ≠ [] ↔ (s.dashboard.autoRefresh = true ∧ s.world.starredStocks ≠ [])) ∧
      ∀ t ∈ s.timers, t.period = s.dashboard.refreshInterval * 60 * 1000 := by
  have h2 := h.2 _ hd
  simp only [Scheduler.currentDeps] at h2
  by_cases hc : s.dashboard.autoRefresh = true ∧ 0 < s.world.starredStocks.length
  · rw [if_pos hc] at h2
    obtain ⟨t, ht, hp⟩ := h2
    refine ⟨by simp [ht], ?_, ?_⟩
    · simp only [ht, ne_eq, List.cons_ne_self, not_false_eq_true, true_iff]
      exact ⟨hc.1, List.length_pos.mp hc.2⟩
    · intro t2 ht2
      rw [ht] at ht2
      simp only [List.mem_singleton] at ht2
      rw [ht2]
      exact hp
  · rw [if_neg hc] at h2
    refine ⟨by simp [h2], ?_, by simp [h2]⟩
    simp only [h2, ne_eq, not_true_eq_false, false_iff]
    intro hcon
    exact hc ⟨hcon.1, List.length_pos.mpr hcon.2⟩

theorem step_setAutoRefresh_false (r : Remote) (s : Scheduler) (h : TimerInv s) :
    (Scheduler.step r s (.setAutoRefresh false)).timers = [] ∧
      (Scheduler.step r s (.setAutoRefresh false)).cycles = s.cycles ∧
      ∀ handle, Scheduler.step r (Scheduler.step r s (.setAutoRefresh false))
        (.timerFires handle) = Scheduler.step r s (.setAutoRefresh false) := by
  have hinv := timerInv_render _ (timerInv_react r s (.setAutoRefresh false) h)
  have hoff : (Scheduler.step r s (.setAutoRefresh false)).dashboard.autoRefresh = false := by
    simp [Scheduler.step, render_dashboard, Scheduler.react]
  have htimers : (Scheduler.step r s (.setAutoRefresh false)).timers = [] := by
    have h3 := (timers_of_inv _ hinv.1 hinv.2).2.1
    by_contra hne
    have h4 := (h3.mp hne).1
    rw [Scheduler.step] at hoff
    rw [hoff] at h4
    cases h4
  refine ⟨htimers, ?_, ?_⟩
  · simp [Scheduler.step, render_cycles, Scheduler.react]
  · intro handle
    have hreact : Scheduler.react r (Scheduler.step r s (.setAutoRefresh false))
        (.timerFires handle) = Scheduler.step r s (.setAutoRefresh false) := by
      simp only [Scheduler.react, htimers, List.find?_nil]
    have hdeps : (Scheduler.step r s (.setAutoRefresh false)).deps =
        some (Scheduler.step r s (.setAutoRefresh false)).currentDeps := hinv.2
    rw [Scheduler.step, hreact]
    simp only [Scheduler.render]
    rw [if_pos hdeps]

/-- C13: in every state reached from the mounted dashboard by any sequence of
inputs, at most one interval is pending; one is pending exactly when
auto-refresh is on and the starred list is non-empty, and its period is
`refreshInterval * 60 * 1000` milliseconds. After auto-refresh is switched off
no interval is pending, the invocations in flight are left as they were, and
a timer firing can no longer start anything. -/
theorem at_most_one_timer (r : Remote) (w : World) (inputs : List Input) :
    (Scheduler.run r (Scheduler.mount w) inputs).timers.length ≤ 1 ∧
      ((Scheduler.run r (Scheduler.mount w) inputs).timers ≠ [] ↔
        ((Scheduler.run r (Scheduler.mount w) inputs).dashboard.autoRefresh = true ∧
          (Scheduler.run r (Scheduler.mount w) inputs).world.starredStocks ≠ [])) ∧
      (∀ t ∈ (Scheduler.run r (Scheduler.mount w) inputs).timers,
        t.period =
          (Scheduler.run r (Scheduler.mount w) inputs).dashboard.refreshInterval * 60 * 1000) ∧
      (Scheduler.step r (Scheduler.run r (Scheduler.mount w) inputs)
        (.setAutoRefresh false)).timers = [] ∧
      (Scheduler.step r (Scheduler.run r (Scheduler.mount w) inputs)
        (.setAutoRefresh false)).cycles =
        (Scheduler.run r (Scheduler.mount w) inputs).cycles ∧
      ∀ handle,
        Scheduler.step r
          (Scheduler.step r (Scheduler.run r (Scheduler.mount w) inputs) (.setAutoRefresh false))
          (.timerFires handle) =
        Scheduler.step r (Scheduler.run r (Scheduler.mount w) inputs) (.setAutoRefresh false) := by
  have hinv := timerInv_run r inputs (Scheduler.mount w) (timerInv_mount w)
  obtain ⟨h1, h2, h3⟩ := timers_of_inv _ hinv.1 hinv.2
  obtain ⟨h4, h5, h6⟩ := step_setAutoRefresh_false r _ hinv.1
  exact ⟨h1, h2, h3, h4, h5, h6⟩

/-! ## The work list of a cycle started by the timer -/

/-- C14 (the code at the failing input): TSLA is starred and auto-refresh is
on, so the effect arms an interval whose callback closes over the list with
TSLA. A manual cycle runs and its final load replaces the list by one with
MSFT: the length is still 1, so the effect does not run again. When the timer
then fires, the list is MSFT but the work list of the cycle is TSLA, and
`refreshStock("TSLA")` is called. A cycle started by the button at that moment
works on MSFT. -/
theorem timer_cycle_uses_stale_list :
    (Scheduler.run (Remote.serving [entry "MSFT"])
        (Scheduler.mount ⟨[entry "TSLA"], false, []⟩)
        [.clickRefreshAll, .resume 0, .resume 0]).world.starredStocks = [entry "MSFT"] ∧
      (Scheduler.run (Remote.serving [entry "MSFT"])
        (Scheduler.mount ⟨[entry "TSLA"], false, []⟩)
        [.clickRefreshAll, .resume 0, .resume 0]).cycles = [] ∧
      (Scheduler.run (Remote.serving [entry "MSFT"])
        (Scheduler.mount ⟨[entry "TSLA"], false, []⟩)
        [.clickRefreshAll, .resume 0, .resume 0, .timerFires 0]).cycles =
          [⟨[entry "TSLA"]⟩] ∧
      refreshedSymbols (Scheduler.run (Remote.serving [entry "MSFT"])
        (Scheduler.mount ⟨[entry "TSLA"], false, []⟩)
        [.clickRefreshAll, .resume 0, .resume 0, .timerFires 0, .resume 0]).world.log =
          ["TSLA", "TSLA"] ∧
      (Scheduler.run (Remote.serving [entry "MSFT"])
        (Scheduler.mount ⟨[entry "TSLA"], false, []⟩)
        [.clickRefreshAll, .resume 0, .resume 0, .clickRefreshAll]).cycles =
          [⟨[entry "MSFT"]⟩] := by
  decide

/-! ## The wrappers of api.js -/

theorem settle_eq_wrapperContract {α : Type} (fallback : String) (outcome : Http α) :
    settle fallback outcome = wrapperContract fallback outcome := by
  cases outcome with
  | resolved data => rfl
  | rejected response =>
    cases response with
    | none => rfl
    | some res =>
      obtain ⟨data⟩ := res
      cases data with
      | none => rfl
      | some body =>
        obtain ⟨field⟩ := body
        cases field with
        | none => rfl
        | some value =>
          cases value with
          | null => rfl
          | bool b => cases b <;> rfl
          | number isZero text => cases isZero <;> rfl
          | string message =>
            by_cases h : message = "" <;>
              simp [settle, wrapperContract, contractMessage, responseError, orFallback,
                FieldValue.truthy, FieldValue.toJsString, h]
          | array joined => cases joined <;> rfl
          | object ownToString => cases ownToString <;> rfl

/-- C15 refuted as stated: on the body `{ error: [] }` the message of the
error of `analyzeStock` is the empty string, neither the `error` field nor
the default message; on a body whose `error` field is an object it is
`[object Object]`, and when that object has a field `toString` the wrapper
fails with a `TypeError`. -/
theorem wrapper_message_of_array :
    analyzeStock (Axios.refusingWith (.array (.ok ""))) "AAPL" = .error ⟨"Error", ""⟩ ∧
      refreshStock (Axios.refusingWith (.object false)) "AAPL" =
        .error ⟨"Error", "[object Object]"⟩ ∧
      starStock (Axios.refusingWith (.object true)) "AAPL" = .error primitiveTypeError := by
  decide

/-- C15 as amended: each of `analyzeStock`, `getStarredStocks`, `starStock`,
`unstarStock` and `refreshStock` returns the response data unchanged when its
request succeeds. Otherwise it fails with an `Error` whose message is the
`error` field of the response body when that field is a non-empty string, the
wrapper's own default message when the field is absent or falsy (`null`,
`false`, zero, the empty string), and for any other field value the string
into which that value is converted; when that conversion throws, the wrapper
fails with the `TypeError` thrown. -/
theorem wrappers_meet_contract {α : Type} (api : Axios α) (symbol : String) :
    analyzeStock api symbol =
        wrapperContract "Failed to analyze stock" (api ⟨"POST", "/analyze", some symbol⟩) ∧
      getStarredStocks api =
        wrapperContract "Failed to fetch starred stocks" (api ⟨"GET", "/starred", none⟩) ∧
      starStock api symbol =
        wrapperContract "Failed to star stock" (api ⟨"POST", "/star", some symbol⟩) ∧
      unstarStock api symbol =
        wrapperContract "Failed to unstar stock" (api ⟨"DELETE", "/star/" ++ symbol, none⟩) ∧
      refreshStock api symbol =
        wrapperContract "Failed to refresh stock data"
          (api ⟨"GET", "/refresh/" ++ symbol, none⟩) :=
  ⟨settle_eq_wrapperContract _ _, settle_eq_wrapperContract _ _,
    settle_eq_wrapperContract _ _, settle_eq_wrapperContract _ _,
    settle_eq_wrapperContract _ _⟩

/-! ## A failed star and isStarred -/

/-- C16 refuted as stated: AAPL is starred, `addStarredStock("AAPL")` fails,
and `isStarred("AAPL")` is still true afterwards. -/
theorem failed_star_of_starred_symbol :
    (addStarredStock Remote.down "AAPL" ⟨[entry "AAPL"], false, []⟩).1 =
        .error ⟨"Error", "Failed to star stock"⟩ ∧
      isStarred (addStarredStock Remote.down "AAPL" ⟨[entry "AAPL"], false, []⟩).2.starredStocks
        (.str "AAPL") = .ok true := by
  decide

/-- C16 as amended: when `starStock(X)` rejects, `addStarredStock(X)` leaves
the starred list unchanged, so `isStarred(X)` is what it was before the call;
it is false afterwards whenever X was not starred before. -/
theorem failed_star_keeps_isStarred (r : Remote) (symbol : String) (w : World) (e : JsError)
    (h : r.starStock symbol w.log = .error e) :
    (addStarredStock r symbol w).2.starredStocks = w.starredStocks ∧
      isStarred (addStarredStock r symbol w).2.starredStocks (.str symbol) =
        isStarred w.starredStocks (.str symbol) ∧
      (isStarred w.starredStocks (.str symbol) = .ok false →
        isStarred (addStarredStock r symbol w).2.starredStocks (.str symbol) = .ok false) := by
  have h1 : (addStarredStock r symbol w).2.starredStocks = w.starredStocks := by
    rw [addStarredStock_of_error r symbol w e h]
    rfl
  refine ⟨h1, by rw [h1], ?_⟩
  intro h2
  rw [h1]
  exact h2

/-- Witness of C16 as amended: MSFT is not starred, the star fails, and MSFT
is not starred afterwards. -/
theorem failed_star_keeps_isStarred_witness :
    isStarred (addStarredStock Remote.down "MSFT" ⟨[entry "TSLA"], false, []⟩).2.starredStocks
      (.str "MSFT") = .ok false :=
  (failed_star_keeps_isStarred Remote.down "MSFT" ⟨[entry "TSLA"], false, []⟩
    ⟨"Error", "Failed to star stock"⟩ rfl).2.2 (by decide)

/-! ## Duplicate symbols -/

/-- C17 refuted as stated: the server lists AAPL twice, and after the load
the store holds AAPL twice. -/
theorem duplicates_are_stored :
    (runOps (Remote.serving [entry "AAPL", entry "AAPL"]) World.initial [.load]).starredStocks =
        [entry "AAPL", entry "AAPL"] ∧
      ¬ UniqueSymbols
        (runOps (Remote.serving [entry "AAPL", entry "AAPL"]) World.initial [.load]).starredStocks := by
  constructor
  · decide
  · unfold UniqueSymbols
    decide

theorem record_starredStocks (w : World) (es : List Event) :
    (w.record es).starredStocks = w.starredStocks := rfl

theorem unique_loadStarredStocks (r : Remote) (w : World)
    (hr : ∀ log stocks, r.getStarredStocks log = .ok stocks → UniqueSymbols stocks)
    (h : UniqueSymbols w.starredStocks) : UniqueSymbols (loadStarredStocks r w).2.starredStocks := by
  cases hg : r.getStarredStocks w.log with
  | ok stocks =>
    have h1 : (loadStarredStocks r w).2.starredStocks = stocks := by
      simp [loadStarredStocks, hg, World.record]
    rw [h1]
    exact hr _ _ hg
  | error e =>
    have h1 : (loadStarredStocks r w).2.starredStocks = w.starredStocks := by
      simp [loadStarredStocks, hg, World.record]
    rw [h1]
    exact h

theorem unique_apply (r : Remote) (w : World) (op : Op)
    (hr : ∀ log stocks, r.getStarredStocks log = .ok stocks → UniqueSymbols stocks)
    (h : UniqueSymbols w.starredStocks) : UniqueSymbols (Op.apply r w op).starredStocks := by
  cases op with
  | load => exact unique_loadStarredStocks r w hr h
  | star symbol =>
    simp only [Op.apply]
    cases hs : r.starStock symbol w.log with
    | ok data =>
      rw [addStarredStock_of_ok r symbol w data hs]
      exact unique_loadStarredStocks r _ hr h
    | error e =>
      rw [addStarredStock_of_error r symbol w e hs]
      exact h
  | unstar symbol =>
    simp only [Op.apply]
    cases hs : r.unstarStock symbol w.log with
    | ok data =>
      rw [removeStarredStock_of_ok r symbol w data hs]
      exact unique_loadStarredStocks r _ hr h
    | error e =>
      rw [removeStarredStock_of_error r symbol w e hs]
      exact h

theorem unique_runOps (r : Remote) (ops : List Op)
    (hr : ∀ log stocks, r.getStarredStocks log = .ok stocks → UniqueSymbols stocks) :
    ∀ w : World, UniqueSymbols w.starredStocks → UniqueSymbols (runOps r w ops).starredStocks := by
  induction ops with
  | nil => intro w h; exact h
  | cons op rest ih =>
    intro w h
    exact ih _ (unique_apply r w op hr h)

/-- C17 as amended: the store keeps the list exactly as `getStarredStocks`
resolved it, so in every state reached by load, star and unstar operations
`starredStocks` has no two entries with the same symbol provided every list
`getStarredStocks` resolved with has none. -/
theorem unique_symbols_of_unique_lists (r : Remote) (ops : List Op)
    (hr : ∀ log stocks, r.getStarredStocks log = .ok stocks → UniqueSymbols stocks) :
    UniqueSymbols (runOps r World.initial ops).starredStocks :=
  unique_runOps r ops hr World.initial List.nodup_nil

/-- Witness of C17 as amended: a server whose list is MSFT, TSLA. -/
theorem unique_symbols_of_unique_lists_witness :
    UniqueSymbols
      (runOps (Remote.serving [entry "MSFT", entry "TSLA"]) World.initial
        [.load, .star "MSFT", .unstar "TSLA"]).starredStocks :=
  unique_symbols_of_unique_lists (Remote.serving [entry "MSFT", entry "TSLA"])
    [.load, .star "MSFT", .unstar "TSLA"]
    (fun _ stocks h => by
      have h1 : [entry "MSFT", entry "TSLA"] = stocks := by
        simpa [Remote.serving] using h
      subst h1
      unfold UniqueSymbols
      decide)

/-! ## The search form -/

theorem trim_eq_empty_iff (s : String) : trim s = "" ↔ isBlank s = true := by
  unfold trim isBlank
  rw [List.all_eq_true]
  constructor
  · intro h
    have h1 : ((s.data.dropWhile isWhiteSpace).reverse.dropWhile isWhiteSpace).reverse = [] := by
      have h2 := congrArg String.data h
      simpa using h2
    rw [List.reverse_eq_nil_iff, List.dropWhile_eq_nil_iff] at h1
    have h3 : List.dropWhile isWhiteSpace (List.dropWhile isWhiteSpace s.data) = [] := by
      rw [List.dropWhile_eq_nil_iff]
      intro x hx
      exact h1 x (List.mem_reverse.mpr hx)
    rw [List.dropWhile_idempotent] at h3
    exact List.dropWhile_eq_nil_iff.mp h3
  · intro h
    have h1 : s.data.dropWhile isWhiteSpace = [] := List.dropWhile_eq_nil_iff.mpr h
    simp only [h1, List.reverse_nil, List.dropWhile_nil]

theorem handleSubmit_loading (api : Axios Payload) (s : SearchBar) (log : List SearchEvent)
    (h : s.loading = false) : (handleSubmit api s log).1.loading = false := by
  unfold handleSubmit
  split
  · exact h
  · simp only []
    split <;> rfl

theorem run_loading (inputs : List SearchInput) :
    ∀ st : SearchBar × List SearchEvent, st.1.loading = false →
      (inputs.foldl SearchBar.step st).1.loading = false := by
  induction inputs with
  | nil => intro st h; exact h
  | cons i rest ih =>
    intro st h
    apply ih
    cases i with
    | change value => simp [SearchBar.step, h]
    | submit api =>
      simp only [SearchBar.step, h, Bool.false_eq_true, if_false]
      exact handleSubmit_loading api st.1 st.2 h

/-- C18: for every text in the search box, `handleSubmit` on a blank text
(empty or white space only) calls neither `analyzeStock` nor
`onAnalysisComplete` and sets the validation message; on any other text it
calls `analyzeStock` exactly once with the trimmed, upper-cased symbol, then
`onAnalysisComplete` with the same symbol if that call succeeded, and if it
failed it does not call `onAnalysisComplete` and records an error message:
`err.message || 'Failed to analyze stock. Please try again.'`, which is the
message of the error unless that is empty. In every case `loading` is false
afterwards; the form can only be submitted while `loading` is false, which it
is after every sequence of inputs. -/
theorem handleSubmit_outcomes (api : Axios Payload) (symbol : String)
    (error : Option String) (log : List SearchEvent) (inputs : List SearchInput) :
    (isBlank symbol = true →
      handleSubmit api ⟨symbol, false, error⟩ log =
        (⟨symbol, false, some "Please enter a stock symbol"⟩, log)) ∧
    (isBlank symbol = false →
      handleSubmit api ⟨symbol, false, error⟩ log =
        match analyzeStock api (toUpperCase (trim symbol)) with
        | .ok _ =>
          (⟨symbol, false, none⟩,
            log ++ [.analyzeStock (toUpperCase (trim symbol)),
                    .onAnalysisComplete (toUpperCase (trim symbol))])
        | .error err =>
          (⟨symbol, false,
              some (if err.message = "" then "Failed to analyze stock. Please try again."
                else err.message)⟩,
            log ++ [.analyzeStock (toUpperCase (trim symbol))])) ∧
    (SearchBar.run inputs).1.loading = false := by
  refine ⟨?_, ?_, run_loading inputs _ rfl⟩
  · intro h
    have h1 := (trim_eq_empty_iff symbol).mpr h
    simp [handleSubmit, h1]
  · intro h
    have h1 : ¬ trim symbol = "" := by
      intro hc
      rw [(trim_eq_empty_iff symbol).mp hc] at h
      cases h
    unfold handleSubmit
    simp only [h1, if_false]
    cases ha : analyzeStock api (toUpperCase (trim symbol)) with
    | ok data => simp
    | error err => simp [orElse]

/-- Witness of C18: a blank text, a lower-case symbol between spaces on a
server that answers, and the same symbol on a server that refuses it. -/
theorem handleSubmit_outcomes_witness :
    handleSubmit (Axios.answering "ok") ⟨"   ", false, none⟩ [] =
        (⟨"   ", false, some "Please enter a stock symbol"⟩, []) ∧
      handleSubmit (Axios.answering "ok") ⟨" aapl ", false, none⟩ [] =
        (⟨" aapl ", false, none⟩, [.analyzeStock "AAPL", .onAnalysisComplete "AAPL"]) ∧
      handleSubmit (Axios.refusing "Unknown symbol") ⟨" aapl ", false, none⟩ [] =
        (⟨" aapl ", false, some "Unknown symbol"⟩, [.analyzeStock "AAPL"]) :=
  ⟨(handleSubmit_outcomes (Axios.answering "ok") "   " none [] []).1 (by decide),
   (handleSubmit_outcomes (Axios.answering "ok") " aapl " none [] []).2.1 (by decide),
   (handleSubmit_outcomes (Axios.refusing "Unknown symbol") " aapl " none [] []).2.1
     (by decide)⟩

end StockSense
